import Mathlib

/-!
# melt-gui: a verification development

A shallow embedding of `melt-gui.cpp`, the interactive front end of the melt
conservative-occluder generator, together with theorems about it.

Conventions of the embedding.

* `float` and `double` values are modelled by the rational numbers they denote.
  Most of the code only stores, copies and compares them; where it computes with
  them (the camera), the rounded operations are fields of `FloatMath`.
* `std::vector` is `List`.  A read or write past the end of a vector, and signed
  overflow of an `int`, have no defined behaviour in C++; the functions that can
  run into them return `Option`, with `none` standing for "no defined result".
* `melt.h`, `tiny_obj_loader.h`, OpenGL and Dear ImGui are not part of the file.
  What the code takes from them (enum constants, the width of the index type of
  `MeltMesh`, `MeltGenerateOccluder`, the OBJ parser, the names the GL driver
  hands out, what the user did to each widget, what GLFW reports) is a field of
  `Env`, `FrameInput` or `WindowInput`.
-/

namespace Melt

/-! ## Data -/

/-- The value of `glm::vec3`. -/
structure Vec3 where
  x : ℚ
  y : ℚ
  z : ℚ
deriving DecidableEq

/-- The float literal `0.5f`. -/
def half : ℚ := ⟨1, 2, by decide, by decide⟩

/-- The float literal `0.25f`. -/
def quarter : ℚ := ⟨1, 4, by decide, by decide⟩

/-- The float literal `0.8f` (as the decimal it is written as). -/
def fourFifths : ℚ := ⟨4, 5, by decide, by decide⟩

/-- The part of `tinyobj::shape_t` that the program reads: `mesh.positions` (three
floats per vertex) and `mesh.indices`. -/
structure Shape where
  positions : List ℚ
  indices : List Nat
deriving DecidableEq

/-- What `tinyobj::LoadObj` leaves behind: the shapes, the error string and its
return value. -/
structure ParseResult where
  shapes : List Shape
  error : String
  obj_parsing_res : Bool
deriving DecidableEq

/-- The value of `MeltMesh`, as used through `melt_params.mesh` and
`melt_result.debugMesh`. -/
structure MeltMesh where
  vertices : List Vec3
  indices : List Nat
deriving DecidableEq

/-- The value of `MeltParams::debug`, with the fields the program touches. -/
structure MeltDebugParams where
  flags : Nat
  sliceIndexX : Int
  sliceIndexY : Int
  sliceIndexZ : Int
  voxelX : Int
  voxelY : Int
  voxelZ : Int
  extentIndex : Int
  extentMaxStep : Int
  voxelScale : ℚ
deriving DecidableEq

/-- The value of `MeltParams`, with the fields the program touches. -/
structure MeltParams where
  mesh : MeltMesh
  voxelSize : ℚ
  fillPercentage : ℚ
  boxTypeFlags : Nat
  debug : MeltDebugParams
deriving DecidableEq

/-- The value of `MeltResult`. -/
structure MeltResult where
  debugMesh : MeltMesh
deriving DecidableEq

/-- The nested struct `ModelMesh::MeshBuffer`. -/
structure MeshBufferHandles where
  vao : Nat
  vbo : Nat
deriving DecidableEq

/-- The nested struct `ModelMesh::OccluderBuffer`. -/
structure OccluderBufferHandles where
  vao : Nat
  vbo : Nat
  indices : Nat
deriving DecidableEq

/-- The value of `struct ModelMesh` (the unused member `InputMesh` left out). -/
structure ModelMesh where
  Program : Nat
  MeshBuffer : MeshBufferHandles
  OccluderBuffer : OccluderBufferHandles
  ModelViewProjection : Int
  Alpha : Int
  VertexCount : Int
deriving DecidableEq

/-- The constructor `ModelMesh()`: `memset` to zero. -/
def ModelMesh.zero : ModelMesh :=
  { Program := 0, MeshBuffer := ⟨0, 0⟩, OccluderBuffer := ⟨0, 0, 0⟩,
    ModelViewProjection := 0, Alpha := 0, VertexCount := 0 }

/-! ## The OpenGL objects the program owns -/

/-- Object lifetime in the GL context: the names in use, one list per name space
(vertex arrays; buffers; shaders and programs, which share one). -/
structure GLState where
  vertexArrays : List Nat
  buffers : List Nat
  programs : List Nat
deriving DecidableEq

/-- Everything the program takes from outside `melt-gui.cpp`. -/
structure Env where
  /-- From melt.h: the enumerators of the box type flags. -/
  MeltOccluderBoxTypeDiagonals : Nat
  MeltOccluderBoxTypeTop : Nat
  MeltOccluderBoxTypeBottom : Nat
  MeltOccluderBoxTypeSides : Nat
  MeltOccluderBoxTypeRegular : Nat
  /-- From melt.h: the enumerators of the debug flags. -/
  MeltDebugTypeShowInner : Nat
  MeltDebugTypeShowExtent : Nat
  MeltDebugTypeShowResult : Nat
  MeltDebugTypeShowOuter : Nat
  MeltDebugTypeShowMinDistance : Nat
  MeltDebugTypeShowSliceSelection : Nat
  /-- From melt.h: the number of bits of an element of `MeltMesh::indices`; a value
  pushed into that vector is converted to this width. -/
  indexBits : Nat
  /-- From melt.h: `MeltGenerateOccluder(params, result)`, as the new `result`. -/
  MeltGenerateOccluder : MeltParams → MeltResult → MeltResult
  /-- The call of `tinyobj::LoadObj` on a stream holding the given text. -/
  LoadObjStream : String → ParseResult
  /-- The call of `tinyobj::LoadObj` on the file at the given path. -/
  LoadObjFile : String → ParseResult
  /-- The OBJ texts of `generated/*_obj.h`. -/
  s_bunny_obj : String
  s_column_obj : String
  s_cube_obj : String
  s_sphere_obj : String
  s_suzanne_obj : String
  s_teapot_obj : String
  /-- The name the GL driver returns from `glGen*` or `glCreate*`, given the names
  in use in that name space. -/
  genName : List Nat → Nat
  /-- The call `glGetUniformLocation(program, name)`. -/
  uniformLocation : Nat → String → Int

/-- The calls `glDelete*(1, &name)`: the name is no longer in use.  (GL keeps a
program that is current until another one is made current; `ModelMesh::Program`
is replaced by a new program before it is used again.) -/
def glDelete (live : List Nat) (name : Nat) : List Nat :=
  live.filter (fun n => n != name)

/-- The call `glGenVertexArrays(1, &h)`. -/
def glGenVertexArrays (env : Env) (gl : GLState) : Nat × GLState :=
  let h := env.genName gl.vertexArrays
  (h, { gl with vertexArrays := h :: gl.vertexArrays })

/-- The call `glGenBuffers(1, &h)`. -/
def glGenBuffers (env : Env) (gl : GLState) : Nat × GLState :=
  let h := env.genName gl.buffers
  (h, { gl with buffers := h :: gl.buffers })

/-- The calls `glCreateShader` and `glCreateProgram`. -/
def glCreateProgram (env : Env) (gl : GLState) : Nat × GLState :=
  let h := env.genName gl.programs
  (h, { gl with programs := h :: gl.programs })

/-! ## `LoadModelMesh` -/

/-- Conversion of an integer to `int` (32 bits, two's complement). -/
def toInt32 (n : Int) : Int := (n + 2 ^ 31) % 2 ^ 32 - 2 ^ 31

/-- Lines 175-177: `VertexCount = 0; for (...) VertexCount += indices.size();`. -/
def countVertices (shapes : List Shape) : Int :=
  shapes.foldl (fun acc s => toInt32 (acc + (s.indices.length : Int))) 0

/-- The call `std::vector::resize(n)`, new elements value-initialised. -/
def resize (buf : List Vec3) (n : Nat) : List Vec3 :=
  buf.take n ++ List.replicate (n - buf.length) ⟨0, 0, 0⟩

/-- Line 185-186: `*reinterpret_cast<glm::vec3*>(&positions[i])`, the three floats
from offset `i` on. -/
def readVec3 (positions : List ℚ) (i : Nat) : Option Vec3 :=
  match positions.get? i, positions.get? (i + 1), positions.get? (i + 2) with
  | some a, some b, some c => some ⟨a, b, c⟩
  | _, _, _ => none

/-- Lines 183-188, the loop over `f` for one shape: the buffer and `output_index`
after it.  The offset `indices[f] * 3` of line 185 is a product of 32-bit
`unsigned int`, the element type of the indices of `tinyobj::mesh_t`, and wraps
at 2^32. -/
def fillShape (positions : List ℚ) :
    List Nat → List Vec3 → Nat → Option (List Vec3 × Nat)
  | [], buf, output_index => some (buf, output_index)
  | idx :: rest, buf, output_index =>
    match readVec3 positions ((idx * 3) % 2 ^ 32) with
    | none => none
    | some position =>
      if output_index + 1 < buf.length then
        fillShape positions rest
          ((buf.set output_index position).set (output_index + 1) ⟨1, half, half⟩)
          (output_index + 2)
      else none

/-- Lines 181-189, the loop over the shapes. -/
def fillBuffer : List Shape → List Vec3 → Nat → Option (List Vec3 × Nat)
  | [], buf, output_index => some (buf, output_index)
  | s :: rest, buf, output_index =>
    match fillShape s.positions s.indices buf output_index with
    | none => none
    | some (buf1, output_index1) => fillBuffer rest buf1 output_index1

/-- Lines 198-204, the loop over `v` for one shape: the vertices appended.  The
reads are in range, `3 * v + 2 < positions.size()` for `v < positions.size() / 3`. -/
def shapeVertices (positions : List ℚ) : List Vec3 :=
  (List.range (positions.length / 3)).map fun v =>
    ⟨positions.getD (3 * v + 0) 0, positions.getD (3 * v + 1) 0, positions.getD (3 * v + 2) 0⟩

/-- Lines 195-204, one round of the loop over the shapes: the indices of the
shape are pushed with the values they have in the shape (converted to the element
type of `MeltMesh::indices`), then the vertices of the shape. -/
def appendShape (indexBits : Nat) (mesh : MeltMesh) (s : Shape) : MeltMesh :=
  { indices := mesh.indices ++ s.indices.map (fun i => i % 2 ^ indexBits),
    vertices := mesh.vertices ++ shapeVertices s.positions }

/-- Lines 191-205: `clear()` both vectors, then the loop over the shapes. -/
def buildMeltMesh (indexBits : Nat) (shapes : List Shape) : MeltMesh :=
  shapes.foldl (appendShape indexBits) { vertices := [], indices := [] }

/-- Lines 140-164: the embedded model of that name if there is one, the file
otherwise. -/
def parseModel (env : Env) (model_path : String) : ParseResult :=
  if model_path = "bunny.obj" then env.LoadObjStream env.s_bunny_obj
  else if model_path = "column.obj" then env.LoadObjStream env.s_column_obj
  else if model_path = "cube.obj" then env.LoadObjStream env.s_cube_obj
  else if model_path = "sphere.obj" then env.LoadObjStream env.s_sphere_obj
  else if model_path = "suzanne.obj" then env.LoadObjStream env.s_suzanne_obj
  else if model_path = "teapot.obj" then env.LoadObjStream env.s_teapot_obj
  else env.LoadObjFile model_path

/-- What `LoadModelMesh` returns and leaves in its reference parameters. -/
structure LoadResult where
  ret : Bool
  melt_params : MeltParams
  out_model_mesh : ModelMesh
  out_buffer_data : List Vec3
  gl : GLState
deriving DecidableEq

/-- Lines 103-133: the shader program.  Both shaders are created, attached to a
new program and deleted again; the program and its uniform locations go to
`out_model_mesh`. -/
def createShaderProgram (env : Env) (out_model_mesh : ModelMesh) (gl : GLState) :
    ModelMesh × GLState :=
  let (vertex_id, gl1) := glCreateProgram env gl
  let (fragment_id, gl2) := glCreateProgram env gl1
  let (program, gl3) := glCreateProgram env gl2
  let gl4 := { gl3 with programs := glDelete (glDelete gl3.programs vertex_id) fragment_id }
  ({ out_model_mesh with
      Program := program,
      ModelViewProjection := env.uniformLocation program "ModelViewProjection",
      Alpha := env.uniformLocation program "alpha" }, gl4)

/-- The function `LoadModelMesh` (lines 78-208). -/
def LoadModelMesh (env : Env) (model_path : String) (melt_params : MeltParams)
    (out_model_mesh : ModelMesh) (out_buffer_data : List Vec3) (gl : GLState) :
    Option LoadResult :=
  let (mesh1, gl1) := createShaderProgram env out_model_mesh gl
  let parsed := parseModel env model_path
  if parsed.error ≠ "" then
    some ⟨false, melt_params, mesh1, out_buffer_data, gl1⟩
  else if parsed.obj_parsing_res = false then
    some ⟨false, melt_params, mesh1, out_buffer_data, gl1⟩
  else
    let VertexCount := countVertices parsed.shapes
    let mesh2 := { mesh1 with VertexCount := VertexCount }
    -- `VertexCount * 2` is an `int` product, converted to `size_t` for `resize`
    if VertexCount * 2 < 0 ∨ 2 ^ 31 ≤ VertexCount * 2 then none
    else
      match fillBuffer parsed.shapes (resize out_buffer_data (VertexCount * 2).toNat) 0 with
      | none => none
      | some (buf, _) =>
        some ⟨true, { melt_params with mesh := buildMeltMesh env.indexBits parsed.shapes },
              mesh2, buf, gl1⟩

/-! ## `ComputeMeshConservativeOcclusion` -/

/-- The objects the program works on: those of `OcclusionContext`, the GL context,
and a record of every call of `MeltGenerateOccluder` so far (the `MeltParams` it
was given, oldest first). -/
structure AppState where
  melt_params : MeltParams
  melt_result : MeltResult
  model_mesh : ModelMesh
  gl : GLState
  generate_calls : List MeltParams
deriving DecidableEq

/-- Lines 333-344: each handle of `out_mesh` that is not zero is deleted.  The
handles themselves keep their values. -/
def deleteHandles (out_mesh : ModelMesh) (gl : GLState) : GLState :=
  let gl1 := if out_mesh.MeshBuffer.vao ≠ 0 then
    { gl with vertexArrays := glDelete gl.vertexArrays out_mesh.MeshBuffer.vao } else gl
  let gl2 := if out_mesh.MeshBuffer.vbo ≠ 0 then
    { gl1 with buffers := glDelete gl1.buffers out_mesh.MeshBuffer.vbo } else gl1
  let gl3 := if out_mesh.OccluderBuffer.vao ≠ 0 then
    { gl2 with vertexArrays := glDelete gl2.vertexArrays out_mesh.OccluderBuffer.vao } else gl2
  let gl4 := if out_mesh.OccluderBuffer.vbo ≠ 0 then
    { gl3 with buffers := glDelete gl3.buffers out_mesh.OccluderBuffer.vbo } else gl3
  let gl5 := if out_mesh.OccluderBuffer.indices ≠ 0 then
    { gl4 with buffers := glDelete gl4.buffers out_mesh.OccluderBuffer.indices } else gl4
  if out_mesh.Program ≠ 0 then
    { gl5 with programs := glDelete gl5.programs out_mesh.Program } else gl5

/-- The function `ComputeMeshConservativeOcclusion` (lines 331-384): its return
value and the state it leaves. -/
def ComputeMeshConservativeOcclusion (env : Env) (mesh_path : String) (st : AppState) :
    Option (Bool × AppState) :=
  let gl0 := deleteHandles st.model_mesh st.gl
  match LoadModelMesh env mesh_path st.melt_params st.model_mesh [] gl0 with
  | none => none
  | some loaded =>
    if loaded.ret = false then
      some (false, { st with melt_params := loaded.melt_params,
                             model_mesh := loaded.out_model_mesh, gl := loaded.gl })
    else
      let (mesh_vao, gl1) := glGenVertexArrays env loaded.gl
      let (mesh_vbo, gl2) := glGenBuffers env gl1
      let melt_result := env.MeltGenerateOccluder loaded.melt_params st.melt_result
      let (occ_vao, gl3) := glGenVertexArrays env gl2
      let (occ_vbo, gl4) := glGenBuffers env gl3
      let (occ_indices, gl5) := glGenBuffers env gl4
      some (true,
        { melt_params := loaded.melt_params,
          melt_result := melt_result,
          model_mesh := { loaded.out_model_mesh with
            MeshBuffer := ⟨mesh_vao, mesh_vbo⟩,
            OccluderBuffer := ⟨occ_vao, occ_vbo, occ_indices⟩ },
          gl := gl5,
          generate_calls := st.generate_calls ++ [loaded.melt_params] })

/-! ## One iteration of the main loop -/

/-- The function-local statics of the loop body (lines 458-481). -/
structure GuiState where
  alpha : ℚ
  depth_test : Bool
  show_slice_selection : Bool
  show_inner : Bool
  show_outer : Bool
  show_dist : Bool
  show_extent : Bool
  show_result : Bool
  show_debug_gui : Bool
  box_type_diagonals : Bool
  box_type_top : Bool
  box_type_bottom : Bool
  box_type_sides : Bool
  box_type_regular : Bool
  obj_model_index : Fin 6
deriving DecidableEq

/-- The initialisers of the statics. -/
def GuiState.initial : GuiState :=
  { alpha := quarter, depth_test := false, show_slice_selection := false,
    show_inner := true, show_outer := true, show_dist := false, show_extent := false,
    show_result := true, show_debug_gui := false, box_type_diagonals := false,
    box_type_top := false, box_type_bottom := false, box_type_sides := false,
    box_type_regular := true, obj_model_index := 0 }

/-- The table `obj_models` (lines 472-480). -/
def obj_models : List String :=
  ["bunny.obj", "column.obj", "cube.obj", "sphere.obj", "suzanne.obj", "teapot.obj"]

/-- What the user does during one frame: the files dropped on the window (for each
drop event its `paths[0]`), and per widget whether it was clicked or which value
was entered (`none`: the widget was left alone). -/
structure FrameInput where
  drops : List String
  combo_obj_model : Option (Fin 6)
  click_show_debug_controls : Bool
  input_voxel_size : Option ℚ
  drag_fill_percentage : Option ℚ
  click_box_type_diagonals : Bool
  click_box_type_top : Bool
  click_box_type_bottom : Bool
  click_box_type_sides : Bool
  click_box_type_regular : Bool
  click_generate : Bool
  input_voxel_scale : Option ℚ
  drag_alpha : Option ℚ
  input_slice_x : Option Int
  input_slice_y : Option Int
  input_slice_z : Option Int
  input_voxel_x : Option Int
  input_voxel_y : Option Int
  input_voxel_z : Option Int
  input_extent_index : Option Int
  input_extent_max_step : Option Int
  click_show_slice_selection : Bool
  click_show_inner : Bool
  click_show_outer : Bool
  click_show_dist : Bool
  click_show_extent : Bool
  click_show_result : Bool
  click_depth_test : Bool
  click_next_diagonal : Bool
  click_previous_diagonal : Bool
deriving DecidableEq

/-- The frame in which the user does nothing. -/
def FrameInput.idle : FrameInput :=
  { drops := [], combo_obj_model := none, click_show_debug_controls := false,
    input_voxel_size := none, drag_fill_percentage := none,
    click_box_type_diagonals := false, click_box_type_top := false,
    click_box_type_bottom := false, click_box_type_sides := false,
    click_box_type_regular := false, click_generate := false,
    input_voxel_scale := none, drag_alpha := none, input_slice_x := none,
    input_slice_y := none, input_slice_z := none, input_voxel_x := none,
    input_voxel_y := none, input_voxel_z := none, input_extent_index := none,
    input_extent_max_step := none, click_show_slice_selection := false,
    click_show_inner := false, click_show_outer := false, click_show_dist := false,
    click_show_extent := false, click_show_result := false, click_depth_test := false,
    click_next_diagonal := false, click_previous_diagonal := false }

/-- The widget `ImGui::Checkbox(label, &v)`: a click flips `v`. -/
def Checkbox (v : Bool) (clicked : Bool) : Bool := if clicked then !v else v

/-- The widgets `ImGui::InputFloat`, `ImGui::DragFloat` and `ImGui::InputInt` on
`&v`: an entered value is stored in `v`. -/
def InputValue {α : Type} (v : α) (entered : Option α) : α :=
  match entered with
  | some e => e
  | none => v

/-- The statics after the widgets that are always shown (lines 499-512). -/
def mainWidgets (inp : FrameInput) (g : GuiState) : GuiState :=
  { g with
    obj_model_index := InputValue g.obj_model_index inp.combo_obj_model,
    show_debug_gui := Checkbox g.show_debug_gui inp.click_show_debug_controls,
    box_type_diagonals := Checkbox g.box_type_diagonals inp.click_box_type_diagonals,
    box_type_top := Checkbox g.box_type_top inp.click_box_type_top,
    box_type_bottom := Checkbox g.box_type_bottom inp.click_box_type_bottom,
    box_type_sides := Checkbox g.box_type_sides inp.click_box_type_sides,
    box_type_regular := Checkbox g.box_type_regular inp.click_box_type_regular }

/-- The statics after the debug widgets (lines 528-552), shown only when
`show_debug_gui` is set. -/
def debugWidgets (inp : FrameInput) (g : GuiState) : GuiState :=
  { g with
    alpha := InputValue g.alpha inp.drag_alpha,
    show_slice_selection := Checkbox g.show_slice_selection inp.click_show_slice_selection,
    show_inner := Checkbox g.show_inner inp.click_show_inner,
    show_outer := Checkbox g.show_outer inp.click_show_outer,
    show_dist := Checkbox g.show_dist inp.click_show_dist,
    show_extent := Checkbox g.show_extent inp.click_show_extent,
    show_result := Checkbox g.show_result inp.click_show_result,
    depth_test := Checkbox g.depth_test inp.click_depth_test }

/-- Lines 485 and 514-518: `boxTypeFlags` is set to zero and rebuilt from the five
checkboxes. -/
def assembleBoxTypeFlags (env : Env) (g : GuiState) : Nat :=
  let f0 := 0
  let f1 := if g.box_type_diagonals then f0 ||| env.MeltOccluderBoxTypeDiagonals else f0
  let f2 := if g.box_type_top then f1 ||| env.MeltOccluderBoxTypeTop else f1
  let f3 := if g.box_type_bottom then f2 ||| env.MeltOccluderBoxTypeBottom else f2
  let f4 := if g.box_type_sides then f3 ||| env.MeltOccluderBoxTypeSides else f3
  if g.box_type_regular then env.MeltOccluderBoxTypeRegular else f4

/-- Lines 545-550: the debug flags collected from the six toggles, on top of `f`. -/
def assembleDebugFlags (env : Env) (g : GuiState) (f : Nat) : Nat :=
  let f1 := if g.show_inner then f ||| env.MeltDebugTypeShowInner else f
  let f2 := if g.show_slice_selection then f1 ||| env.MeltDebugTypeShowSliceSelection else f1
  let f3 := if g.show_outer then f2 ||| env.MeltDebugTypeShowOuter else f2
  let f4 := if g.show_dist then f3 ||| env.MeltDebugTypeShowMinDistance else f3
  let f5 := if g.show_extent then f4 ||| env.MeltDebugTypeShowExtent else f4
  if g.show_result then f5 ||| env.MeltDebugTypeShowResult else f5

/-- Lines 525-570: `melt_params.debug` after the debug section of the window; `g`
holds the statics after all widgets of the frame and `d.flags` is still zero.  The
two diagonal buttons count `voxelX`, `voxelY` and `voxelZ` up and down; these
counters are taken as integers without a bound. -/
def assembleDebug (env : Env) (inp : FrameInput) (g : GuiState) (d : MeltDebugParams) :
    MeltDebugParams :=
  if g.show_debug_gui then
    let step : Int := (if inp.click_next_diagonal then 1 else 0)
      - (if inp.click_previous_diagonal then 1 else 0)
    { flags := assembleDebugFlags env g d.flags,
      voxelScale := InputValue d.voxelScale inp.input_voxel_scale,
      sliceIndexX := InputValue d.sliceIndexX inp.input_slice_x,
      sliceIndexY := InputValue d.sliceIndexY inp.input_slice_y,
      sliceIndexZ := InputValue d.sliceIndexZ inp.input_slice_z,
      voxelX := InputValue d.voxelX inp.input_voxel_x + step,
      voxelY := InputValue d.voxelY inp.input_voxel_y + step,
      voxelZ := InputValue d.voxelZ inp.input_voxel_z + step,
      extentIndex := InputValue d.extentIndex inp.input_extent_index,
      extentMaxStep := InputValue d.extentMaxStep inp.input_extent_max_step }
  else
    { d with extentIndex := -1, flags := d.flags ||| env.MeltDebugTypeShowResult }

/-- What the window code of one frame (lines 456-572) leaves: the statics, the
parameters and the two locals `generate_clicked` and `model_selected`. -/
structure GuiResult where
  gui : GuiState
  melt_params : MeltParams
  generate_clicked : Bool
  model_selected : Bool
deriving DecidableEq

/-- Lines 456-572: the window of one frame. -/
def buildGui (env : Env) (inp : FrameInput) (g : GuiState) (melt_params : MeltParams) :
    GuiResult :=
  let p0 := { melt_params with
    debug := { melt_params.debug with flags := 0 }, boxTypeFlags := 0 }
  let model_selected := inp.combo_obj_model.isSome
  let g1 := mainWidgets inp g
  let p1 := { p0 with
    voxelSize := InputValue p0.voxelSize inp.input_voxel_size,
    fillPercentage := InputValue p0.fillPercentage inp.drag_fill_percentage,
    boxTypeFlags := assembleBoxTypeFlags env g1 }
  let generate_clicked := inp.click_generate
  let g2 := if g1.show_debug_gui then debugWidgets inp g1 else g1
  { gui := g2,
    melt_params := { p1 with debug := assembleDebug env inp g2 p1.debug },
    generate_clicked := generate_clicked,
    model_selected := model_selected }

/-- The GL calls of the frame that name an object of `ModelMesh`. -/
inductive GLCall where
  | useProgram (name : Nat)
  | bindVertexArray (name : Nat)
  | bindBuffer (name : Nat)
deriving DecidableEq

/-- Lines 599-614: the draw section binds what its guards let through. -/
def renderCalls (model_mesh : ModelMesh) (melt_result : MeltResult) : List GLCall :=
  (if model_mesh.Program ≠ 0 then [GLCall.useProgram model_mesh.Program] else [])
  ++ (if model_mesh.MeshBuffer.vao ≠ 0 ∧ model_mesh.VertexCount > 0 then
        [GLCall.bindVertexArray model_mesh.MeshBuffer.vao] else [])
  ++ (if model_mesh.OccluderBuffer.vao ≠ 0 ∧ melt_result.debugMesh.indices.length > 0 then
        [GLCall.bindVertexArray model_mesh.OccluderBuffer.vao] else [])

/-- The whole program state between two frames. -/
structure LoopState where
  app : AppState
  gui : GuiState
deriving DecidableEq

/-- The drop callback (lines 436-444), once per drop event of `glfwPollEvents`. -/
def pollEvents (env : Env) : List String → AppState → Option AppState
  | [], st => some st
  | path :: rest, st =>
    match ComputeMeshConservativeOcclusion env path st with
    | none => none
    | some (_, st1) => pollEvents env rest st1

/-- Lines 617-629: the Generate button. -/
def generateClicked (env : Env) (st : AppState) : AppState :=
  { st with
    melt_result := env.MeltGenerateOccluder st.melt_params st.melt_result,
    generate_calls := st.generate_calls ++ [st.melt_params] }

/-- One iteration of the main loop (lines 453-637). -/
def frame (env : Env) (inp : FrameInput) (s : LoopState) : Option LoopState :=
  match pollEvents env inp.drops s.app with
  | none => none
  | some app1 =>
    let r := buildGui env inp s.gui app1.melt_params
    let app2 := { app1 with melt_params := r.melt_params }
    let app3 := if r.generate_clicked then generateClicked env app2 else app2
    if r.model_selected then
      match ComputeMeshConservativeOcclusion env
          (obj_models.getD r.gui.obj_model_index.val "") app3 with
      | none => none
      | some (_, app4) => some { app := app4, gui := r.gui }
    else
      some { app := app3, gui := r.gui }

/-- The state in which the loop is entered when no model was named on the
command line (lines 420-426), over default-constructed `MeltParams` and
`MeltResult` values. -/
def initialState (params0 : MeltParams) (result0 : MeltResult) (gl : GLState) : LoopState :=
  { app :=
      { melt_params := { params0 with
          debug := { params0.debug with voxelScale := fourFifths },
          voxelSize := quarter, fillPercentage := 1 },
        melt_result := result0, model_mesh := ModelMesh.zero, gl := gl,
        generate_calls := [] },
    gui := GuiState.initial }

/-- The main loop (lines 451-638): one frame after the other, one input per
frame. -/
def run (env : Env) : List FrameInput → LoopState → Option LoopState
  | [], s => some s
  | inp :: rest, s =>
    match frame env inp s with
    | none => none
    | some s1 => run env rest s1

/-! ## Concrete values for the examples -/

/-- One environment: enumerators that are distinct bit masks (`Regular` being
`Top | Bottom | Sides`), 16-bit indices, a generator that returns no geometry, a
parser that finds no shapes, and a driver that hands out one more than the
largest name in use. -/
def sampleEnv : Env :=
  { MeltOccluderBoxTypeDiagonals := 1, MeltOccluderBoxTypeTop := 2,
    MeltOccluderBoxTypeBottom := 4, MeltOccluderBoxTypeSides := 8,
    MeltOccluderBoxTypeRegular := 14,
    MeltDebugTypeShowInner := 1, MeltDebugTypeShowExtent := 2,
    MeltDebugTypeShowResult := 4, MeltDebugTypeShowOuter := 8,
    MeltDebugTypeShowMinDistance := 16, MeltDebugTypeShowSliceSelection := 32,
    indexBits := 16,
    MeltGenerateOccluder := fun _ _ => { debugMesh := { vertices := [], indices := [] } },
    LoadObjStream := fun _ => { shapes := [], error := "", obj_parsing_res := true },
    LoadObjFile := fun _ => { shapes := [], error := "", obj_parsing_res := true },
    s_bunny_obj := "", s_column_obj := "", s_cube_obj := "", s_sphere_obj := "",
    s_suzanne_obj := "", s_teapot_obj := "",
    genName := fun live => live.foldl max 0 + 1,
    uniformLocation := fun _ _ => 0 }

/-- A `MeltParams` value with an empty mesh and every number zero. -/
def sampleParams : MeltParams :=
  { mesh := { vertices := [], indices := [] }, voxelSize := 0, fillPercentage := 0,
    boxTypeFlags := 0,
    debug := { flags := 0, sliceIndexX := 0, sliceIndexY := 0, sliceIndexZ := 0,
               voxelX := 0, voxelY := 0, voxelZ := 0, extentIndex := 0,
               extentMaxStep := 0, voxelScale := 0 } }

/-- The loop state at start-up over `sampleParams`, an empty result and a GL
context without objects. -/
def sampleStart : LoopState :=
  initialState sampleParams { debugMesh := { vertices := [], indices := [] } }
    { vertexArrays := [], buffers := [], programs := [] }

/-- The frame in which the user clicks BoxTypeTop and BoxTypeSides. -/
def clickTopAndSides : FrameInput :=
  { FrameInput.idle with click_box_type_top := true, click_box_type_sides := true }

/-- The frame in which the user unchecks BoxTypeRegular, the only box checked at
start-up, and clicks Generate. -/
def uncheckRegularAndGenerate : FrameInput :=
  { FrameInput.idle with click_box_type_regular := true, click_generate := true }

/-- The frame in which the user unchecks BoxTypeRegular and checks BoxTypeTop and
BoxTypeSides. -/
def clickRegularTopSides : FrameInput :=
  { FrameInput.idle with click_box_type_regular := true, click_box_type_top := true,
                         click_box_type_sides := true }

/-- A GL context without objects. -/
def emptyGL : GLState := { vertexArrays := [], buffers := [], programs := [] }

/-- Two shapes of one triangle each, as the parser returns them for an OBJ file
with two objects: every shape has its own positions, and its indices count from
the start of those. -/
def twoTriangles : List Shape :=
  [ { positions := [0, 0, 0, 1, 0, 0, 0, 1, 0], indices := [0, 1, 2] },
    { positions := [0, 0, 1, 1, 0, 1, 0, 1, 1], indices := [0, 1, 2] } ]

/-- The environment `sampleEnv` with a parser that finds `twoTriangles` in the
file "two.obj" and reports an error for every other file, and with a generator
that returns one triangle. -/
def objEnv : Env :=
  { sampleEnv with
    MeltGenerateOccluder := fun _ _ =>
      { debugMesh := { vertices := [⟨0, 0, 0⟩, ⟨1, 0, 0⟩, ⟨0, 1, 0⟩], indices := [0, 1, 2] } },
    LoadObjFile := fun path =>
      if path = "two.obj" then { shapes := twoTriangles, error := "", obj_parsing_res := true }
      else { shapes := [], error := "Cannot open file", obj_parsing_res := false } }

/-- What `LoadModelMesh` leaves for "two.obj" in `objEnv`. -/
def twoTrianglesLoaded : LoadResult :=
  (LoadModelMesh objEnv "two.obj" sampleParams ModelMesh.zero [] emptyGL).getD
    ⟨false, sampleParams, ModelMesh.zero, [], emptyGL⟩

/-- The program state after "two.obj" was dropped on the window at start-up. -/
def twoTrianglesDropped : AppState :=
  match ComputeMeshConservativeOcclusion objEnv "two.obj" sampleStart.app with
  | some (_, st) => st
  | none => sampleStart.app

/-- The loop state with `twoTrianglesDropped` and the statics of start-up. -/
def twoTrianglesLoop : LoopState := { app := twoTrianglesDropped, gui := GuiState.initial }

/-- The frame in which the user types 0 into Voxel Size and clicks Generate. -/
def enterZeroAndGenerate : FrameInput :=
  { FrameInput.idle with input_voxel_size := some 0, click_generate := true }

/-- The frame in which the user types 1/2 into Voxel Size and clicks Generate. -/
def enterHalfAndGenerate : FrameInput :=
  { FrameInput.idle with input_voxel_size := some half, click_generate := true }

/-- The frame in which the user only clicks on the debug controls checkbox. -/
def clickDebugControls : FrameInput :=
  { FrameInput.idle with click_show_debug_controls := true }

/-! ## The claims in the words of the specification -/

/-- The constants of the boxes that are checked among Diagonals, Top, Bottom and
Sides. -/
def checkedBoxConstants (env : Env) (g : GuiState) : List Nat :=
  ([(g.box_type_diagonals, env.MeltOccluderBoxTypeDiagonals),
    (g.box_type_top, env.MeltOccluderBoxTypeTop),
    (g.box_type_bottom, env.MeltOccluderBoxTypeBottom),
    (g.box_type_sides, env.MeltOccluderBoxTypeSides)].filter fun c => c.1).map fun c => c.2

/-- The bitwise OR of a list of constants. -/
def orAll (l : List Nat) : Nat := l.foldr (fun c acc => c ||| acc) 0

/-- Every handle of `ModelMesh` that is not zero names an object in use. -/
def handlesLive (m : ModelMesh) (gl : GLState) : Prop :=
  (m.MeshBuffer.vao ≠ 0 → m.MeshBuffer.vao ∈ gl.vertexArrays)
  ∧ (m.MeshBuffer.vbo ≠ 0 → m.MeshBuffer.vbo ∈ gl.buffers)
  ∧ (m.OccluderBuffer.vao ≠ 0 → m.OccluderBuffer.vao ∈ gl.vertexArrays)
  ∧ (m.OccluderBuffer.vbo ≠ 0 → m.OccluderBuffer.vbo ∈ gl.buffers)
  ∧ (m.OccluderBuffer.indices ≠ 0 → m.OccluderBuffer.indices ∈ gl.buffers)
  ∧ (m.Program ≠ 0 → m.Program ∈ gl.programs)

instance (m : ModelMesh) (gl : GLState) : Decidable (handlesLive m gl) := by
  unfold handlesLive
  infer_instance

/-- The object a GL call of the draw section names is in use. -/
def callIsLive (gl : GLState) : GLCall → Bool
  | .useProgram n => decide (n ∈ gl.programs)
  | .bindVertexArray n => decide (n ∈ gl.vertexArrays)
  | .bindBuffer n => decide (n ∈ gl.buffers)

/-! ## The extent grower of `melt.h`

`MeltGenerateOccluder` is implemented in `melt.h`, which is not part of the file.
The definitions of this section follow sections 3 and 4.3 of the specification.
The grid is taken as it comes out of the Voxelizer and the Classifier, whatever
the mesh was. -/

/-- Modelled from the spec: the occupancy class of a voxel (section 3, VoxelGrid),
kept by `melt.h`. -/
inductive VoxelClass where
  | Outside
  | Boundary
  | Inside
deriving DecidableEq

/-- Modelled from the spec: the integer coordinates of a voxel of the grid of
`melt.h`. -/
structure Voxel where
  x : Int
  y : Int
  z : Int
deriving DecidableEq

/-- Modelled from the spec: the VoxelGrid of `melt.h` (section 3), a dense
three-dimensional array kept as one flat buffer per channel (section 9), with the
occupancy class and the clearance of each cell. -/
structure VoxelGrid where
  dimX : Nat
  dimY : Nat
  dimZ : Nat
  occupancy : List VoxelClass
  clearance : List Nat
deriving DecidableEq

/-- Modelled from the spec: the 3D-to-linear-index function of the grid of
`melt.h` (section 9). -/
def VoxelGrid.linearIndex (g : VoxelGrid) (v : Voxel) : Nat :=
  (v.x + g.dimX * (v.y + g.dimY * v.z)).toNat

/-- Modelled from the spec: whether a coordinate lies in the grid of `melt.h`. -/
def VoxelGrid.inBounds (g : VoxelGrid) (v : Voxel) : Bool :=
  decide (0 ≤ v.x ∧ v.x < g.dimX ∧ 0 ≤ v.y ∧ v.y < g.dimY ∧ 0 ≤ v.z ∧ v.z < g.dimZ)

/-- Modelled from the spec: the occupancy class the grid of `melt.h` holds for a
voxel; a coordinate that is not in the grid is not Inside. -/
def VoxelGrid.classAt (g : VoxelGrid) (v : Voxel) : VoxelClass :=
  if g.inBounds v then g.occupancy.getD (g.linearIndex v) VoxelClass.Outside
  else VoxelClass.Outside

/-- Modelled from the spec: the clearance the grid of `melt.h` holds for a voxel. -/
def VoxelGrid.clearanceAt (g : VoxelGrid) (v : Voxel) : Nat :=
  if g.inBounds v then g.clearance.getD (g.linearIndex v) 0 else 0

/-- Modelled from the spec: the growth policies of the ExtentGrower of `melt.h`
(section 4.3), in declaration order with Regular last. -/
inductive GrowthPolicy where
  | Diagonals
  | Top
  | Bottom
  | Sides
  | Regular
deriving DecidableEq

/-- Modelled from the spec: an Extent of `melt.h` (section 3), an axis-aligned box
given by inclusive integer min and max voxel coordinates, with the policy that
produced it. -/
structure Extent where
  minX : Int
  minY : Int
  minZ : Int
  maxX : Int
  maxY : Int
  maxZ : Int
  policy : GrowthPolicy
deriving DecidableEq

/-- Modelled from the spec: a voxel is covered by the coordinate range of an
Extent of `melt.h`. -/
def Extent.covers (e : Extent) (v : Voxel) : Prop :=
  e.minX ≤ v.x ∧ v.x ≤ e.maxX ∧ e.minY ≤ v.y ∧ v.y ≤ e.maxY ∧ e.minZ ≤ v.z ∧ v.z ≤ e.maxZ

instance (e : Extent) (v : Voxel) : Decidable (e.covers v) := by
  unfold Extent.covers
  infer_instance

/-- The integers from `lo` to `hi`, both included. -/
def intRange (lo hi : Int) : List Int :=
  (List.range (hi - lo + 1).toNat).map fun (k : Nat) => lo + (k : Int)

/-- Modelled from the spec: the voxels in the coordinate range of an Extent of
`melt.h`, in scan order (z, then y, then x ascending). -/
def Extent.voxels (e : Extent) : List Voxel :=
  (intRange e.minZ e.maxZ).flatMap fun z =>
    (intRange e.minY e.maxY).flatMap fun y =>
      (intRange e.minX e.maxX).map fun x => ⟨x, y, z⟩

/-- Modelled from the spec: the enclosed volume of an Extent of `melt.h`, in
voxels. -/
def Extent.volume (e : Extent) : Nat :=
  (e.maxX - e.minX + 1).toNat * (e.maxY - e.minY + 1).toNat * (e.maxZ - e.minZ + 1).toNat

/-- Modelled from the spec: one growth step of the ExtentGrower of `melt.h`, by how
many layers each of the six faces moves out (a face step moves one face, a
diagonal step several at once). -/
structure Move where
  negX : Int
  posX : Int
  negY : Int
  posY : Int
  negZ : Int
  posZ : Int
deriving DecidableEq

/-- Modelled from the spec: the box of `melt.h` after a growth step. -/
def Extent.grow (e : Extent) (m : Move) : Extent :=
  { e with minX := e.minX - m.negX, maxX := e.maxX + m.posX,
           minY := e.minY - m.negY, maxY := e.maxY + m.posY,
           minZ := e.minZ - m.negZ, maxZ := e.maxZ + m.posZ }

/-- Modelled from the spec: the six face steps of the grower of `melt.h`; the
vertical axis is y. -/
def faceMoves : List Move :=
  [⟨1, 0, 0, 0, 0, 0⟩, ⟨0, 1, 0, 0, 0, 0⟩, ⟨0, 0, 1, 0, 0, 0⟩,
   ⟨0, 0, 0, 1, 0, 0⟩, ⟨0, 0, 0, 0, 1, 0⟩, ⟨0, 0, 0, 0, 0, 1⟩]

/-- Modelled from the spec: the steps of the grower of `melt.h` along the eight
diagonal axes of the grid, each moving the three faces that meet in one corner. -/
def diagonalMoves : List Move :=
  [⟨1, 0, 1, 0, 1, 0⟩, ⟨0, 1, 1, 0, 1, 0⟩, ⟨1, 0, 0, 1, 1, 0⟩, ⟨0, 1, 0, 1, 1, 0⟩,
   ⟨1, 0, 1, 0, 0, 1⟩, ⟨0, 1, 1, 0, 0, 1⟩, ⟨1, 0, 0, 1, 0, 1⟩, ⟨0, 1, 0, 1, 0, 1⟩]

/-- Modelled from the spec: the direction set of each growth policy of `melt.h`
(section 4.3): Regular all six faces; Top, Bottom and Sides the face up, the face
down and the four horizontal faces; Diagonals the diagonal axes in addition to
the face axes. -/
def policyMoves : GrowthPolicy → List Move
  | .Regular => faceMoves
  | .Top => [⟨0, 0, 0, 1, 0, 0⟩]
  | .Bottom => [⟨0, 0, 1, 0, 0, 0⟩]
  | .Sides => [⟨1, 0, 0, 0, 0, 0⟩, ⟨0, 1, 0, 0, 0, 0⟩, ⟨0, 0, 0, 0, 1, 0⟩, ⟨0, 0, 0, 0, 0, 1⟩]
  | .Diagonals => faceMoves ++ diagonalMoves

/-- Modelled from the spec: the growth test of the grower of `melt.h`: the step is
taken unless the box would then touch a voxel that is not Inside or is already
claimed. -/
def tryMove (g : VoxelGrid) (consumed : List Voxel) (e : Extent) (m : Move) :
    Option Extent :=
  if (e.grow m).voxels.all fun v =>
      decide (e.covers v) || (decide (g.classAt v = VoxelClass.Inside) && !consumed.contains v)
  then some (e.grow m) else none

/-- Modelled from the spec: one round of growth in `melt.h`, one layer on each
direction that is still growing; a direction whose step fails stops, the others go
on.  The result is the box and the directions still growing. -/
def growRound (g : VoxelGrid) (consumed : List Voxel) : List Move → Extent → Extent × List Move
  | [], e => (e, [])
  | m :: ms, e =>
    match tryMove g consumed e m with
    | some e1 => ((growRound g consumed ms e1).1, m :: (growRound g consumed ms e1).2)
    | none => growRound g consumed ms e

/-- Modelled from the spec: the growth of one box in `melt.h`, round after round
until no direction grows any more or the bound on the number of steps is hit. -/
def growBox (g : VoxelGrid) (consumed : List Voxel) : Nat → List Move → Extent → Extent
  | 0, _, e => e
  | _ + 1, [], e => e
  | maxStep + 1, m :: ms, e =>
    growBox g consumed maxStep (growRound g consumed (m :: ms) e).2
      (growRound g consumed (m :: ms) e).1

/-- Modelled from the spec: the seed of the grower of `melt.h`, an unclaimed Inside
voxel with maximal clearance, the first such in scan order (z, then y, then x
ascending). -/
def pickSeed (g : VoxelGrid) (consumed : List Voxel) : Option Voxel :=
  let all : Extent := ⟨0, 0, 0, (g.dimX : Int) - 1, (g.dimY : Int) - 1, (g.dimZ : Int) - 1,
    GrowthPolicy.Regular⟩
  (all.voxels.filter fun v =>
      decide (g.classAt v = VoxelClass.Inside) && !consumed.contains v).foldl
    (fun best v =>
      match best with
      | none => some v
      | some b => if g.clearanceAt b < g.clearanceAt v then some v else some b)
    none

/-- Modelled from the spec: the Extent the grower of `melt.h` keeps among those of
the enabled policies, the one with the larger volume, the earlier one on a tie. -/
def bestExtent : List Extent → Option Extent
  | [] => none
  | e :: rest =>
    match bestExtent rest with
    | none => some e
    | some b => if e.volume < b.volume then some b else some e

/-- Modelled from the spec: the enabled policies of `boxTypeFlags` for `melt.h`, in
declaration order; Regular excludes the others (section 3). -/
def enabledPolicies (flags : List GrowthPolicy) : List GrowthPolicy :=
  if GrowthPolicy.Regular ∈ flags then [GrowthPolicy.Regular]
  else [GrowthPolicy.Diagonals, GrowthPolicy.Top, GrowthPolicy.Bottom,
        GrowthPolicy.Sides].filter fun p => flags.contains p

/-- Modelled from the spec: the loop of the ExtentGrower of `melt.h` (section 4.3):
pick a seed, grow a box from it under every enabled policy, keep the best, mark
its voxels consumed; stop when no unclaimed Inside voxel remains or the ceiling on
the number of extents is hit. -/
def growExtents (g : VoxelGrid) (policies : List GrowthPolicy) (maxStep : Nat) :
    Nat → List Voxel → List Extent
  | 0, _ => []
  | ceiling + 1, consumed =>
    match pickSeed g consumed with
    | none => []
    | some seed =>
      match bestExtent (policies.map fun p =>
          growBox g consumed maxStep (policyMoves p)
            ⟨seed.x, seed.y, seed.z, seed.x, seed.y, seed.z, p⟩) with
      | none => []
      | some e => e :: growExtents g policies maxStep ceiling (e.voxels ++ consumed)

/-- Modelled from the spec: the Extents of the result of `generate`, that is of
`MeltGenerateOccluder` of `melt.h`, for the grid that the Voxelizer and the
Classifier made of the mesh. -/
def generateExtents (g : VoxelGrid) (flags : List GrowthPolicy) (maxStep ceiling : Nat) :
    List Extent :=
  growExtents g (enabledPolicies flags) maxStep ceiling []

/-- A grid of 4 x 3 x 3 voxels whose two middle voxels (1,1,1) and (2,1,1) are
Inside, with Boundary voxels around them. -/
def sampleGrid : VoxelGrid :=
  { dimX := 4, dimY := 3, dimZ := 3,
    occupancy :=
      List.replicate 17 VoxelClass.Boundary ++ [VoxelClass.Inside, VoxelClass.Inside]
        ++ List.replicate 17 VoxelClass.Boundary,
    clearance := List.replicate 17 0 ++ [1, 1] ++ List.replicate 17 0 }

/-- The conservativeness invariant of an Extent (section 3): every voxel in its
coordinate range is classified Inside. -/
def Extent.allInside (g : VoxelGrid) (e : Extent) : Prop :=
  ∀ v : Voxel, e.covers v → g.classAt v = VoxelClass.Inside

/-! ## The result of `LoadModelMesh` in the words of the specification -/

/-- The position that the index `i` of a shape refers to: the three floats of the
shape's positions that start at `3 * i`. -/
def positionOf (s : Shape) (i : Nat) : Option Vec3 :=
  match s.positions.get? (3 * i), s.positions.get? (3 * i + 1), s.positions.get? (3 * i + 2) with
  | some x, some y, some z => some ⟨x, y, z⟩
  | _, _, _ => none

/-- The position each index refers to, the shapes in order and the indices in
order within a shape. -/
def indexedPositions (shapes : List Shape) : List (Option Vec3) :=
  shapes.flatMap fun s => s.indices.map (positionOf s)

/-- What line 185 reads for each index, the shapes in order and the indices in
order within a shape: the three floats at the 32-bit offset `indices[f] * 3`. -/
def bufferReads (shapes : List Shape) : List (Option Vec3) :=
  shapes.flatMap fun s => s.indices.map fun i => readVec3 s.positions ((i * 3) % 2 ^ 32)

/-- The sum of the index counts of the shapes. -/
def totalIndexCount (shapes : List Shape) : Nat :=
  (shapes.map fun s => s.indices.length).sum

/-- What `LoadModelMesh` leaves for "notes.txt", which does not parse, when it is
called by `ComputeMeshConservativeOcclusion` after "two.obj" was loaded. -/
def notesLoaded : LoadResult :=
  (LoadModelMesh objEnv "notes.txt" twoTrianglesDropped.melt_params
      twoTrianglesDropped.model_mesh []
      (deleteHandles twoTrianglesDropped.model_mesh twoTrianglesDropped.gl)).getD
    ⟨true, sampleParams, ModelMesh.zero, [], emptyGL⟩

/-- What `LoadModelMesh` leaves for "two.obj" in `objEnv` when `out_buffer_data`
holds three entries from an earlier use. -/
def twoTrianglesOverOld : LoadResult :=
  (LoadModelMesh objEnv "two.obj" sampleParams ModelMesh.zero
      [⟨7, 7, 7⟩, ⟨8, 8, 8⟩, ⟨9, 9, 9⟩] emptyGL).getD
    ⟨false, sampleParams, ModelMesh.zero, [], emptyGL⟩

/-- The environment `sampleEnv` with a parser that finds one shape of two vertices
whose only index is 1431655766; three times that index is 2^32 + 2. -/
def wrapEnv : Env :=
  { sampleEnv with
    LoadObjFile := fun _ =>
      { shapes := [{ positions := [10, 11, 12, 13, 14, 15], indices := [1431655766] }],
        error := "", obj_parsing_res := true } }

/-! ## The start of the program and the "Voxel Size" input -/

/-- Lines 420-434: the state in which the loop is entered.  When a model is named
on the command line (`argc >= 2`) it is loaded first. -/
def startState (env : Env) (argv1 : Option String) (params0 : MeltParams)
    (result0 : MeltResult) (gl : GLState) : Option LoopState :=
  match argv1 with
  | none => some (initialState params0 result0 gl)
  | some path =>
    match ComputeMeshConservativeOcclusion env path (initialState params0 result0 gl).app with
    | none => none
    | some (_, app) => some { app := app, gui := GuiState.initial }

/-- The value the "Voxel Size" input holds after the given frames: the value the
user entered last, and `v0`, the value it held before them, if none was entered. -/
def heldVoxelSize (v0 : ℚ) (inputs : List FrameInput) : ℚ :=
  ((inputs.filterMap fun inp => inp.input_voxel_size).getLast?).getD v0

/-- The frame in which the user types 1/2 into Voxel Size and does nothing else. -/
def typeHalf : FrameInput :=
  { FrameInput.idle with input_voxel_size := some half }

/-- The frame in which the user only clicks Generate. -/
def clickGenerate : FrameInput :=
  { FrameInput.idle with click_generate := true }

/-- The loop state after start-up without a model and the frame `typeHalf`. -/
def afterTypeHalf : LoopState :=
  (run sampleEnv [typeHalf] sampleStart).getD sampleStart

/-- The loop state after start-up without a model, the frame `typeHalf` and the
frame `clickGenerate`. -/
def afterTypeHalfAndClick : LoopState :=
  (frame sampleEnv clickGenerate afterTypeHalf).getD sampleStart

/-! ## `FPSCameraViewMatrix` -/

/-- The constant `(float) M_PI_2` of lines 229-230: the float nearest to pi/2, which
is 13176795 / 2^23. -/
def M_PI_2 : ℚ := ⟨13176795, 8388608, by decide, by decide⟩

/-- The float literal `0.005f` (as the decimal it is written as). -/
def fiveThousandths : ℚ := ⟨1, 200, by decide, by decide⟩

/-- The float literal `0.1f` (as the decimal it is written as). -/
def oneTenth : ℚ := ⟨1, 10, by decide, by decide⟩

/-- The float literal `0.01f` (as the decimal it is written as). -/
def oneHundredth : ℚ := ⟨1, 100, by decide, by decide⟩

/-- The value of `glm::mat4`, its sixteen floats. -/
structure Mat4 where
  entries : List ℚ
deriving DecidableEq

/-- The value of `struct Camera`. -/
structure Camera where
  view : Mat4
  position : Vec3
deriving DecidableEq

/-- The function-local statics of `FPSCameraViewMatrix` (lines 212-214). -/
structure CameraStatics where
  position : Vec3
  rotation : ℚ × ℚ
  lastMouse : ℚ × ℚ
deriving DecidableEq

/-- The initialisers of the statics. -/
def CameraStatics.initial : CameraStatics :=
  { position := ⟨-4, 0, 0⟩, rotation := (0, 0), lastMouse := (0, 0) }

/-- What GLFW reports during the call: the cursor position, whether the left mouse
button is pressed, and which of the keys read by the function are pressed. -/
structure WindowInput where
  mouse : ℚ × ℚ
  mouse_button_left : Bool
  key_left_shift : Bool
  key_s : Bool
  key_w : Bool
  key_a : Bool
  key_d : Bool
deriving DecidableEq

/-- The arithmetic the function takes from outside the file: the rounded float
operations, the subtraction of doubles and the conversion of a double to float,
`cos` and `sin`, and `glm::normalize` and `glm::lookAt`. -/
structure FloatMath where
  add : ℚ → ℚ → ℚ
  sub : ℚ → ℚ → ℚ
  mul : ℚ → ℚ → ℚ
  doubleSub : ℚ → ℚ → ℚ
  toFloat : ℚ → ℚ
  cos : ℚ → ℚ
  sin : ℚ → ℚ
  normalize : Vec3 → Vec3
  lookAt : Vec3 → Vec3 → Vec3 → Mat4

/-- The sum of two `glm::vec3`. -/
def vadd (fm : FloatMath) (a b : Vec3) : Vec3 := ⟨fm.add a.x b.x, fm.add a.y b.y, fm.add a.z b.z⟩

/-- The difference of two `glm::vec3`. -/
def vsub (fm : FloatMath) (a b : Vec3) : Vec3 := ⟨fm.sub a.x b.x, fm.sub a.y b.y, fm.sub a.z b.z⟩

/-- The product of a `glm::vec3` and a float. -/
def vscale (fm : FloatMath) (a : Vec3) (k : ℚ) : Vec3 := ⟨fm.mul a.x k, fm.mul a.y k, fm.mul a.z k⟩

/-- The function `glm::cross`. -/
def cross (fm : FloatMath) (a b : Vec3) : Vec3 :=
  ⟨fm.sub (fm.mul a.y b.z) (fm.mul b.y a.z),
   fm.sub (fm.mul a.z b.x) (fm.mul b.z a.x),
   fm.sub (fm.mul a.x b.y) (fm.mul b.x a.y)⟩

/-- Lines 218-222: the rotation is accumulated from the mouse movement while the
left button is pressed and input is not ignored. -/
def updateRotation (fm : FloatMath) (inp : WindowInput) (ignore_input : Bool)
    (c : CameraStatics) : ℚ × ℚ :=
  if !ignore_input && inp.mouse_button_left then
    (fm.add c.rotation.1
        (fm.mul (fm.toFloat (fm.doubleSub inp.mouse.2 c.lastMouse.2)) fiveThousandths),
     fm.add c.rotation.2
        (fm.mul (fm.toFloat (fm.doubleSub inp.mouse.1 c.lastMouse.1)) fiveThousandths))
  else c.rotation

/-- Lines 226, 229 and 230: the local `pitch` for the accumulated `rotation[0]`, after
the two tests against `M_PI_2`. -/
def clampPitch (rotation0 : ℚ) : ℚ :=
  let pitch := -rotation0
  let pitch1 := if pitch ≥ M_PI_2 then M_PI_2 else pitch
  if pitch1 ≤ -M_PI_2 then -M_PI_2 else pitch1

/-- Lines 232-237: the forward vector built from `pitch` and `yaw`. -/
def forwardVector (fm : FloatMath) (pitch yaw : ℚ) : Vec3 :=
  fm.normalize ⟨fm.mul (fm.cos pitch) (fm.cos yaw), fm.sin pitch,
    fm.mul (fm.cos pitch) (fm.sin yaw)⟩

/-- Lines 239-250: the position after the key presses. -/
def movePosition (fm : FloatMath) (inp : WindowInput) (ignore_input : Bool)
    (forward : Vec3) (position : Vec3) : Vec3 :=
  let up : Vec3 := ⟨0, 1, 0⟩
  let speed := if inp.key_left_shift then oneTenth else oneHundredth
  if !ignore_input then
    let p1 := if inp.key_s then vsub fm position (vscale fm forward speed) else position
    let p2 := if inp.key_w then vadd fm p1 (vscale fm forward speed) else p1
    let p3 := if inp.key_a then
      vsub fm p2 (vscale fm (fm.normalize (cross fm forward up)) speed) else p2
    if inp.key_d then
      vadd fm p3 (vscale fm (fm.normalize (cross fm forward up)) speed) else p3
  else position

/-- The value of the local `pitch` at line 234, where the forward vector is built. -/
def pitchUsed (fm : FloatMath) (inp : WindowInput) (ignore_input : Bool)
    (c : CameraStatics) : ℚ :=
  clampPitch (updateRotation fm inp ignore_input c).1

/-- The function `FPSCameraViewMatrix` (lines 210-255): the camera it returns and
the statics it leaves. -/
def FPSCameraViewMatrix (fm : FloatMath) (inp : WindowInput) (ignore_input : Bool)
    (c : CameraStatics) : Camera × CameraStatics :=
  let rotation := updateRotation fm inp ignore_input c
  let lastMouse := inp.mouse
  let pitch := clampPitch rotation.1
  let yaw := rotation.2
  let forward := forwardVector fm pitch yaw
  let position := movePosition fm inp ignore_input forward c.position
  let view := fm.lookAt position (vadd fm position forward) ⟨0, 1, 0⟩
  ({ view := view, position := position },
   { position := position, rotation := rotation, lastMouse := lastMouse })

/-- Exact arithmetic, with stand-ins for the functions that leave the rationals. -/
def sampleMath : FloatMath :=
  { add := fun a b => a + b, sub := fun a b => a - b, mul := fun a b => a * b,
    doubleSub := fun a b => a - b, toFloat := fun a => a,
    cos := fun _ => 1, sin := fun _ => 0, normalize := fun v => v,
    lookAt := fun eye center _ => ⟨[eye.x, eye.y, eye.z, center.x, center.y, center.z]⟩ }

/-- The camera after the user has turned it far down: `rotation[0]` is 2. -/
def turnedCamera : CameraStatics :=
  { position := ⟨-4, 0, 0⟩, rotation := (2, 1), lastMouse := (100, 50) }

/-- The cursor has moved to (130, 90) with the left button and W pressed. -/
def dragInput : WindowInput :=
  { mouse := (130, 90), mouse_button_left := true, key_left_shift := false,
    key_s := false, key_w := true, key_a := false, key_d := false }

/-! ## Theorems -/

theorem or_eq_zero_left {a b : Nat} (h : a ||| b = 0) : a = 0 := by
  apply Nat.eq_of_testBit_eq
  intro i
  have hi := congrArg (fun n => n.testBit i) h
  simp only [Nat.testBit_or, Nat.zero_testBit, Bool.or_eq_false_iff] at hi
  simp [hi.1]

theorem or_eq_zero_right {a b : Nat} (h : a ||| b = 0) : b = 0 := by
  apply Nat.eq_of_testBit_eq
  intro i
  have hi := congrArg (fun n => n.testBit i) h
  simp only [Nat.testBit_or, Nat.zero_testBit, Bool.or_eq_false_iff] at hi
  simp [hi.2]

/-- The debug widgets leave the five box-type checkboxes and `show_debug_gui`
alone, so after the window these are what the main widgets made of them. -/
theorem buildGui_gui_boxes (env : Env) (inp : FrameInput) (g : GuiState) (p : MeltParams) :
    (buildGui env inp g p).gui.box_type_diagonals = (mainWidgets inp g).box_type_diagonals
    ∧ (buildGui env inp g p).gui.box_type_top = (mainWidgets inp g).box_type_top
    ∧ (buildGui env inp g p).gui.box_type_bottom = (mainWidgets inp g).box_type_bottom
    ∧ (buildGui env inp g p).gui.box_type_sides = (mainWidgets inp g).box_type_sides
    ∧ (buildGui env inp g p).gui.box_type_regular = (mainWidgets inp g).box_type_regular
    ∧ (buildGui env inp g p).gui.show_debug_gui = (mainWidgets inp g).show_debug_gui := by
  simp only [buildGui]
  split <;> simp [debugWidgets]

theorem buildGui_boxTypeFlags (env : Env) (inp : FrameInput) (g : GuiState)
    (p : MeltParams) :
    (buildGui env inp g p).melt_params.boxTypeFlags
      = assembleBoxTypeFlags env (mainWidgets inp g) := by
  simp [buildGui]

/-- C1: in every frame in which the BoxTypeRegular checkbox is checked, the
`boxTypeFlags` assembled for the frame are exactly `MeltOccluderBoxTypeRegular`,
whatever the other four checkboxes, the clicks of the frame and the previous
parameters are. -/
theorem C1_regular_clears_other_bits (env : Env) (inp : FrameInput) (g : GuiState)
    (p : MeltParams) (h : (buildGui env inp g p).gui.box_type_regular = true) :
    (buildGui env inp g p).melt_params.boxTypeFlags = env.MeltOccluderBoxTypeRegular := by
  rw [(buildGui_gui_boxes env inp g p).2.2.2.2.1] at h
  rw [buildGui_boxTypeFlags]
  simp [assembleBoxTypeFlags, h]

theorem C1_regular_clears_other_bits_witness :
    (buildGui sampleEnv clickTopAndSides GuiState.initial sampleParams).gui.box_type_regular
      = true
    ∧ (buildGui sampleEnv clickTopAndSides GuiState.initial
        sampleParams).melt_params.boxTypeFlags = 14 :=
  ⟨by decide, C1_regular_clears_other_bits sampleEnv _ _ _ (by decide)⟩

/-- C2, as stated, fails: with all five checkboxes unchecked the flags assembled
for the frame are 0, and a click on Generate in that frame hands 0 to
`MeltGenerateOccluder`. -/
theorem C2_all_unchecked_gives_zero :
    (buildGui sampleEnv uncheckRegularAndGenerate GuiState.initial
        sampleStart.app.melt_params).melt_params.boxTypeFlags = 0
    ∧ (frame sampleEnv uncheckRegularAndGenerate sampleStart).map
        (fun s => s.app.generate_calls.map fun p => p.boxTypeFlags) = some [0] := by
  decide

/-- C2, amended: when the enumerators of `melt.h` are not zero and at least one of
the five checkboxes is checked, the flags assembled for the frame are not 0. -/
theorem C2_flags_nonzero_when_a_box_is_checked (env : Env) (inp : FrameInput)
    (g : GuiState) (p : MeltParams)
    (hD : env.MeltOccluderBoxTypeDiagonals ≠ 0) (hT : env.MeltOccluderBoxTypeTop ≠ 0)
    (hB : env.MeltOccluderBoxTypeBottom ≠ 0) (hS : env.MeltOccluderBoxTypeSides ≠ 0)
    (hR : env.MeltOccluderBoxTypeRegular ≠ 0)
    (h : (buildGui env inp g p).gui.box_type_diagonals = true
      ∨ (buildGui env inp g p).gui.box_type_top = true
      ∨ (buildGui env inp g p).gui.box_type_bottom = true
      ∨ (buildGui env inp g p).gui.box_type_sides = true
      ∨ (buildGui env inp g p).gui.box_type_regular = true) :
    (buildGui env inp g p).melt_params.boxTypeFlags ≠ 0 := by
  obtain ⟨e1, e2, e3, e4, e5, _⟩ := buildGui_gui_boxes env inp g p
  rw [e1, e2, e3, e4, e5] at h
  rw [buildGui_boxTypeFlags]
  generalize mainWidgets inp g = g1 at h ⊢
  unfold assembleBoxTypeFlags
  intro h0
  cases hr : g1.box_type_regular
  · simp only [hr, Bool.false_eq_true, if_false, or_false] at h h0
    cases hs : g1.box_type_sides
    · simp only [hs, Bool.false_eq_true, if_false, or_false] at h h0
      cases hb : g1.box_type_bottom
      · simp only [hb, Bool.false_eq_true, if_false, or_false] at h h0
        cases ht : g1.box_type_top
        · simp only [ht, Bool.false_eq_true, if_false, or_false] at h h0
          simp only [h, if_true, Nat.zero_or] at h0
          exact hD h0
        · simp only [ht, if_true] at h0
          exact hT (or_eq_zero_right h0)
      · simp only [hb, if_true] at h0
        exact hB (or_eq_zero_right h0)
    · simp only [hs, if_true] at h0
      exact hS (or_eq_zero_right h0)
  · simp only [hr, if_true] at h0
    exact hR h0

theorem C2_flags_nonzero_when_a_box_is_checked_witness :
    (buildGui sampleEnv clickRegularTopSides GuiState.initial
        sampleParams).gui.box_type_top = true
    ∧ (buildGui sampleEnv clickRegularTopSides GuiState.initial
        sampleParams).melt_params.boxTypeFlags ≠ 0 :=
  ⟨by decide,
   C2_flags_nonzero_when_a_box_is_checked sampleEnv clickRegularTopSides GuiState.initial
    sampleParams (by decide) (by decide) (by decide) (by decide) (by decide) (by decide)⟩

/-- C6: in every frame in which BoxTypeRegular is unchecked, the `boxTypeFlags`
assembled for the frame are the bitwise OR of the constants of exactly the boxes
checked among Diagonals, Top, Bottom and Sides, and they do not depend on the
parameters (so not on the flags) left by the previous frame. -/
theorem C6_flags_are_or_of_checked_boxes (env : Env) (inp : FrameInput) (g : GuiState)
    (p : MeltParams) (h : (buildGui env inp g p).gui.box_type_regular = false) :
    (buildGui env inp g p).melt_params.boxTypeFlags
        = orAll (checkedBoxConstants env (buildGui env inp g p).gui)
    ∧ ∀ q : MeltParams, (buildGui env inp g q).melt_params.boxTypeFlags
        = (buildGui env inp g p).melt_params.boxTypeFlags := by
  obtain ⟨e1, e2, e3, e4, e5, _⟩ := buildGui_gui_boxes env inp g p
  rw [e5] at h
  refine ⟨?_, fun q => by rw [buildGui_boxTypeFlags, buildGui_boxTypeFlags]⟩
  rw [buildGui_boxTypeFlags]
  unfold checkedBoxConstants
  rw [e1, e2, e3, e4]
  generalize mainWidgets inp g = g1 at h ⊢
  unfold assembleBoxTypeFlags
  cases hd : g1.box_type_diagonals <;> cases ht : g1.box_type_top <;>
    cases hb : g1.box_type_bottom <;> cases hs : g1.box_type_sides <;>
    simp [h, orAll, Nat.lor_assoc]

theorem C6_flags_are_or_of_checked_boxes_witness :
    (buildGui sampleEnv clickRegularTopSides GuiState.initial
        sampleParams).gui.box_type_regular = false
    ∧ (buildGui sampleEnv clickRegularTopSides GuiState.initial
        sampleParams).melt_params.boxTypeFlags
        = orAll (checkedBoxConstants sampleEnv (buildGui sampleEnv clickRegularTopSides
            GuiState.initial sampleParams).gui)
    ∧ ∀ q : MeltParams, (buildGui sampleEnv clickRegularTopSides GuiState.initial
        q).melt_params.boxTypeFlags
        = (buildGui sampleEnv clickRegularTopSides GuiState.initial
            sampleParams).melt_params.boxTypeFlags :=
  ⟨by decide, C6_flags_are_or_of_checked_boxes sampleEnv clickRegularTopSides
    GuiState.initial sampleParams (by decide)⟩

/-- C7: in every frame in which the debug controls are hidden (`show_debug_gui`
is false), the parameters assembled for the frame have `debug.flags` equal to
`MeltDebugTypeShowResult` and `debug.extentIndex` equal to -1, whatever the six
stored toggles and the previous `debug.flags` are. -/
theorem C7_hidden_debug_is_normal_mode (env : Env) (inp : FrameInput) (g : GuiState)
    (p : MeltParams) (h : (buildGui env inp g p).gui.show_debug_gui = false) :
    (buildGui env inp g p).melt_params.debug.flags = env.MeltDebugTypeShowResult
    ∧ (buildGui env inp g p).melt_params.debug.extentIndex = -1 := by
  rw [(buildGui_gui_boxes env inp g p).2.2.2.2.2] at h
  simp [buildGui, assembleDebug, h]

theorem C7_hidden_debug_is_normal_mode_witness :
    (buildGui sampleEnv clickTopAndSides GuiState.initial sampleParams).gui.show_debug_gui
      = false
    ∧ (buildGui sampleEnv clickTopAndSides GuiState.initial
        sampleParams).melt_params.debug.flags = 4
    ∧ (buildGui sampleEnv clickTopAndSides GuiState.initial
        sampleParams).melt_params.debug.extentIndex = -1 :=
  ⟨by decide, C7_hidden_debug_is_normal_mode sampleEnv clickTopAndSides GuiState.initial
    sampleParams (by decide)⟩

/-! ### `LoadModelMesh` -/

/-- When `LoadModelMesh` returns true, the parser reported no error, the mesh of
`melt_params` is the one built from the parsed shapes and nothing else of
`melt_params` has changed. -/
theorem LoadModelMesh_true (env : Env) (model_path : String) (melt_params : MeltParams)
    (out_model_mesh : ModelMesh) (buf : List Vec3) (gl : GLState) (r : LoadResult)
    (hload : LoadModelMesh env model_path melt_params out_model_mesh buf gl = some r)
    (hret : r.ret = true) :
    (parseModel env model_path).error = ""
    ∧ (parseModel env model_path).obj_parsing_res = true
    ∧ r.melt_params = { melt_params with
        mesh := buildMeltMesh env.indexBits (parseModel env model_path).shapes } := by
  unfold LoadModelMesh at hload
  simp only at hload
  split_ifs at hload with h1 h2 h3
  · simp only [Option.some.injEq] at hload
    rw [← hload] at hret
    simp at hret
  · simp only [Option.some.injEq] at hload
    rw [← hload] at hret
    simp at hret
  · split at hload
    · simp at hload
    · simp only [Option.some.injEq] at hload
      rw [← hload]
      refine ⟨by simpa using h1, by simpa using h2, rfl⟩

theorem shapeVertices_length (positions : List ℚ) :
    (shapeVertices positions).length = positions.length / 3 := by
  simp [shapeVertices]

/-- The loop of lines 193-205 keeps every index pushed so far below the number of
vertices pushed so far, when each shape's indices are below its vertex count. -/
theorem foldl_appendShape_in_bounds (w : Nat) (shapes : List Shape)
    (hrange : ∀ s ∈ shapes, ∀ i ∈ s.indices, i < s.positions.length / 3) :
    ∀ m : MeltMesh, (∀ i ∈ m.indices, i < m.vertices.length) →
      ∀ i ∈ (shapes.foldl (appendShape w) m).indices,
        i < (shapes.foldl (appendShape w) m).vertices.length := by
  induction shapes with
  | nil => intro m hm; simpa using hm
  | cons s rest ih =>
    intro m hm
    rw [List.foldl_cons]
    apply ih (fun t ht => hrange t (List.mem_cons_of_mem _ ht))
    intro i hi
    simp only [appendShape, List.mem_append, List.mem_map] at hi
    simp only [appendShape, List.length_append, shapeVertices_length]
    rcases hi with hi | ⟨j, hj, rfl⟩
    · exact Nat.lt_of_lt_of_le (hm i hi) (Nat.le_add_right _ _)
    · have hj3 := hrange s (List.mem_cons_self _ _) j hj
      have hmod : j % 2 ^ w ≤ j := Nat.mod_le _ _
      omega

/-- C4: when the indices of every parsed shape are below that shape's vertex
count `positions.size() / 3` and `LoadModelMesh` returns true, every entry of
`melt_params.mesh.indices` is below `melt_params.mesh.vertices.size()`. -/
theorem C4_melt_indices_in_bounds (env : Env) (model_path : String)
    (melt_params : MeltParams) (out_model_mesh : ModelMesh) (buf : List Vec3)
    (gl : GLState) (r : LoadResult)
    (hrange : ∀ s ∈ (parseModel env model_path).shapes,
      ∀ i ∈ s.indices, i < s.positions.length / 3)
    (hload : LoadModelMesh env model_path melt_params out_model_mesh buf gl = some r)
    (hret : r.ret = true) :
    ∀ i ∈ r.melt_params.mesh.indices, i < r.melt_params.mesh.vertices.length := by
  obtain ⟨_, _, hp⟩ := LoadModelMesh_true env model_path melt_params out_model_mesh buf gl r
    hload hret
  rw [hp]
  exact foldl_appendShape_in_bounds env.indexBits _ hrange _ (by simp)

/-- C3, evaluated on an OBJ file with two objects of one triangle each: the load
succeeds, the fourth index (k = 3, the first of the second shape) is drawn at the
position (0, 0, 1) of its own shape, yet in the mesh handed to melt it is the
index 0 into the concatenated vertices and so names (0, 0, 0), a vertex of the
first shape. -/
theorem C3_second_shape_indices_not_rebased :
    (LoadModelMesh objEnv "two.obj" sampleParams ModelMesh.zero [] emptyGL).map
        (fun r => r.ret) = some true
    ∧ (LoadModelMesh objEnv "two.obj" sampleParams ModelMesh.zero [] emptyGL).map
        (fun r => r.out_buffer_data.get? (2 * 3)) = some (some ⟨0, 0, 1⟩)
    ∧ (LoadModelMesh objEnv "two.obj" sampleParams ModelMesh.zero [] emptyGL).map
        (fun r => r.melt_params.mesh.indices) = some [0, 1, 2, 0, 1, 2]
    ∧ (LoadModelMesh objEnv "two.obj" sampleParams ModelMesh.zero [] emptyGL).map
        (fun r => r.melt_params.mesh.vertices.get? (r.melt_params.mesh.indices.getD 3 0))
        = some (some ⟨0, 0, 0⟩) := by
  decide

theorem C4_melt_indices_in_bounds_witness :
    (∀ s ∈ (parseModel objEnv "two.obj").shapes,
      ∀ i ∈ s.indices, i < s.positions.length / 3)
    ∧ LoadModelMesh objEnv "two.obj" sampleParams ModelMesh.zero [] emptyGL
        = some twoTrianglesLoaded
    ∧ twoTrianglesLoaded.ret = true
    ∧ ∀ i ∈ twoTrianglesLoaded.melt_params.mesh.indices,
        i < twoTrianglesLoaded.melt_params.mesh.vertices.length :=
  ⟨by decide, by decide, by decide,
   C4_melt_indices_in_bounds objEnv "two.obj" sampleParams ModelMesh.zero [] emptyGL
     twoTrianglesLoaded (by decide) (by decide) (by decide)⟩

/-! ### The main loop -/

/-- C5: a frame in which Generate is not clicked, no entry of the model combo is
selected and no file is dropped runs to its end and makes no call of
`MeltGenerateOccluder`: the record of calls is the one from before the frame. -/
theorem C5_no_generate_without_user_action (env : Env) (inp : FrameInput) (s : LoopState)
    (hg : inp.click_generate = false) (hc : inp.combo_obj_model = none)
    (hd : inp.drops = []) :
    (frame env inp s).map (fun s1 => s1.app.generate_calls) = some s.app.generate_calls := by
  simp [frame, hd, pollEvents, buildGui, hg, hc]

theorem C5_no_generate_without_user_action_witness :
    clickDebugControls.click_generate = false
    ∧ clickDebugControls.combo_obj_model = none
    ∧ clickDebugControls.drops = []
    ∧ (frame objEnv clickDebugControls twoTrianglesLoop).map
          (fun s1 => s1.app.generate_calls)
        = some twoTrianglesLoop.app.generate_calls :=
  ⟨by decide, by decide, by decide,
   C5_no_generate_without_user_action objEnv clickDebugControls _ (by decide) (by decide)
     (by decide)⟩

/-- C8, as stated, fails: the user types 0 into Voxel Size and clicks Generate,
and `MeltGenerateOccluder` is called with `voxelSize` 0, which is not greater
than 0. -/
theorem C8_zero_voxel_size_reaches_generate :
    (frame sampleEnv enterZeroAndGenerate sampleStart).map
        (fun s1 => s1.app.generate_calls.map fun p => p.voxelSize) = some [0]
    ∧ ¬ ((0 : ℚ) < 0) := by
  decide

/-- A frame in which the user enters the value `v` in Voxel Size and clicks
Generate, and loads no model, runs to its end and calls `MeltGenerateOccluder`
once, with `voxelSize` equal to `v`. -/
theorem frame_click_passes_entered_value (env : Env) (inp : FrameInput)
    (s : LoopState) (v : ℚ) (hv : inp.input_voxel_size = some v)
    (hg : inp.click_generate = true) (hc : inp.combo_obj_model = none)
    (hd : inp.drops = []) :
    (frame env inp s).map (fun s1 => s1.app.generate_calls.map fun p => p.voxelSize)
      = some (s.app.generate_calls.map (fun p => p.voxelSize) ++ [v]) := by
  simp [frame, hd, pollEvents, buildGui, hg, hc, hv, generateClicked, InputValue]

/-! ### GL handles -/

theorem mem_glDelete {live : List Nat} {n name : Nat} (hn : n ∈ live) (hne : n ≠ name) :
    n ∈ glDelete live name := by
  simp [glDelete, hn, hne]

/-- The shader program that `LoadModelMesh` creates is in use when it returns,
whatever it returns, if the driver never hands out a name that is in use; vertex
arrays and buffers are not touched. -/
theorem createShaderProgram_live (env : Env) (hfresh : ∀ live, env.genName live ∉ live)
    (m : ModelMesh) (gl : GLState) :
    (createShaderProgram env m gl).1.Program ∈ (createShaderProgram env m gl).2.programs
    ∧ (createShaderProgram env m gl).2.vertexArrays = gl.vertexArrays
    ∧ (createShaderProgram env m gl).2.buffers = gl.buffers
    ∧ (createShaderProgram env m gl).1.MeshBuffer = m.MeshBuffer
    ∧ (createShaderProgram env m gl).1.OccluderBuffer = m.OccluderBuffer := by
  simp only [createShaderProgram, glCreateProgram]
  refine ⟨?_, trivial, trivial, trivial, trivial⟩
  apply mem_glDelete
  · apply mem_glDelete
    · exact List.mem_cons_self _ _
    · intro heq
      apply hfresh (env.genName gl.programs :: gl.programs)
      have h3 := hfresh (env.genName (env.genName gl.programs :: gl.programs)
        :: env.genName gl.programs :: gl.programs)
      rw [heq] at h3
      simp at h3
  · intro heq
    have h3 := hfresh (env.genName (env.genName gl.programs :: gl.programs)
      :: env.genName gl.programs :: gl.programs)
    rw [heq] at h3
    simp at h3

/-- On its success return `ComputeMeshConservativeOcclusion` leaves only handles
of objects in use in `ModelMesh`, if the driver never hands out a name that is in
use. -/
theorem ComputeMesh_true_handlesLive (env : Env) (hfresh : ∀ live, env.genName live ∉ live)
    (mesh_path : String) (st st1 : AppState)
    (h : ComputeMeshConservativeOcclusion env mesh_path st = some (true, st1)) :
    handlesLive st1.model_mesh st1.gl := by
  unfold ComputeMeshConservativeOcclusion at h
  simp only at h
  split at h
  · simp at h
  · rename_i loaded hload
    split_ifs at h with hret
    · simp at h
    · simp only [glGenVertexArrays, glGenBuffers, Option.some.injEq, Prod.mk.injEq,
        true_and] at h
      have hprog : loaded.out_model_mesh.Program ∈ loaded.gl.programs := by
        unfold LoadModelMesh at hload
        have hc := createShaderProgram_live env hfresh st.model_mesh
          (deleteHandles st.model_mesh st.gl)
        simp only at hload
        split_ifs at hload
        · simp only [Option.some.injEq] at hload
          rw [← hload]; exact hc.1
        · simp only [Option.some.injEq] at hload
          rw [← hload]; exact hc.1
        · split at hload
          · simp at hload
          · simp only [Option.some.injEq] at hload
            rw [← hload]; exact hc.1
      rw [← h]
      simp [handlesLive, hprog]

/-- C10, evaluated: "two.obj" has been loaded, so every handle of `ModelMesh`
names an object in use; then a file that does not parse is dropped.  The call
returns false after it has deleted the vertex arrays and buffers, whose handles
keep their old non-zero values: the invariant is lost on the failure return,
and the draw section of the next frame passes its guards and binds both deleted
vertex arrays. -/
theorem C10_failed_load_keeps_deleted_handles :
    handlesLive twoTrianglesDropped.model_mesh twoTrianglesDropped.gl
    ∧ (ComputeMeshConservativeOcclusion objEnv "notes.txt" twoTrianglesDropped).map
        (fun r => r.1) = some false
    ∧ (ComputeMeshConservativeOcclusion objEnv "notes.txt" twoTrianglesDropped).map
        (fun r => r.2.model_mesh.MeshBuffer) = some ⟨1, 1⟩
    ∧ (ComputeMeshConservativeOcclusion objEnv "notes.txt" twoTrianglesDropped).map
        (fun r => r.2.model_mesh.OccluderBuffer) = some ⟨2, 2, 3⟩
    ∧ (ComputeMeshConservativeOcclusion objEnv "notes.txt" twoTrianglesDropped).map
        (fun r => (r.2.gl.vertexArrays, r.2.gl.buffers)) = some ([], [])
    ∧ (ComputeMeshConservativeOcclusion objEnv "notes.txt" twoTrianglesDropped).map
        (fun r => decide (handlesLive r.2.model_mesh r.2.gl)) = some false
    ∧ (ComputeMeshConservativeOcclusion objEnv "notes.txt" twoTrianglesDropped).map
        (fun r => renderCalls r.2.model_mesh r.2.melt_result)
        = some [.useProgram 3, .bindVertexArray 1, .bindVertexArray 2]
    ∧ (ComputeMeshConservativeOcclusion objEnv "notes.txt" twoTrianglesDropped).map
        (fun r => (renderCalls r.2.model_mesh r.2.melt_result).map (callIsLive r.2.gl))
        = some [true, false, false] := by
  decide

/-! ### The extent grower -/

theorem mem_intRange (lo hi x : Int) : x ∈ intRange lo hi ↔ lo ≤ x ∧ x ≤ hi := by
  simp only [intRange, List.mem_map, List.mem_range]
  constructor
  · rintro ⟨k, hk, rfl⟩
    omega
  · intro h
    exact ⟨(x - lo).toNat, by omega, by omega⟩

/-- The list `voxels` holds exactly the voxels the Extent covers. -/
theorem mem_voxels (e : Extent) (v : Voxel) : v ∈ e.voxels ↔ e.covers v := by
  simp only [Extent.voxels, List.mem_flatMap, List.mem_map, mem_intRange, Extent.covers]
  constructor
  · rintro ⟨z, hz, y, hy, x, hx, rfl⟩
    exact ⟨hx.1, hx.2, hy.1, hy.2, hz.1, hz.2⟩
  · rintro ⟨h1, h2, h3, h4, h5, h6⟩
    exact ⟨v.z, ⟨h5, h6⟩, v.y, ⟨h3, h4⟩, v.x, ⟨h1, h2⟩, rfl⟩

/-- A growth step that passes the growth test keeps the box inside. -/
theorem tryMove_allInside (g : VoxelGrid) (consumed : List Voxel) (e e1 : Extent) (m : Move)
    (hinv : e.allInside g) (h : tryMove g consumed e m = some e1) : e1.allInside g := by
  unfold tryMove at h
  split_ifs at h with hall
  simp only [Option.some.injEq] at h
  subst h
  intro v hv
  rw [List.all_eq_true] at hall
  have hv1 := hall v ((mem_voxels _ _).2 hv)
  simp only [Bool.or_eq_true, Bool.and_eq_true, decide_eq_true_eq] at hv1
  rcases hv1 with hc | ⟨hin, _⟩
  · exact hinv v hc
  · exact hin

theorem growRound_allInside (g : VoxelGrid) (consumed : List Voxel) (ms : List Move) :
    ∀ e : Extent, e.allInside g → (growRound g consumed ms e).1.allInside g := by
  induction ms with
  | nil => intro e he; exact he
  | cons m ms ih =>
    intro e he
    unfold growRound
    split
    · rename_i e1 h1
      exact ih e1 (tryMove_allInside g consumed e e1 m he h1)
    · exact ih e he

theorem growBox_allInside (g : VoxelGrid) (consumed : List Voxel) (maxStep : Nat) :
    ∀ (ms : List Move) (e : Extent), e.allInside g →
      (growBox g consumed maxStep ms e).allInside g := by
  induction maxStep with
  | zero => intro ms e he; unfold growBox; exact he
  | succ n ih =>
    intro ms e he
    cases ms with
    | nil => unfold growBox; exact he
    | cons m ms =>
      unfold growBox
      exact ih _ _ (growRound_allInside g consumed (m :: ms) e he)

/-- The running maximum of the seed selection is the start value or an element of
the list. -/
theorem foldl_best_mem (g : VoxelGrid) (l : List Voxel) :
    ∀ (init : Option Voxel) (r : Voxel),
      l.foldl (fun best v =>
        match best with
        | none => some v
        | some b => if g.clearanceAt b < g.clearanceAt v then some v else some b) init
        = some r → init = some r ∨ r ∈ l := by
  induction l with
  | nil => intro init r h; exact Or.inl (by simpa using h)
  | cons a l ih =>
    intro init r h
    rw [List.foldl_cons] at h
    rcases ih _ r h with h1 | h1
    · cases init with
      | none =>
        simp only [Option.some.injEq] at h1
        exact Or.inr (by simp [h1])
      | some b =>
        simp only at h1
        split_ifs at h1
        · simp only [Option.some.injEq] at h1
          exact Or.inr (by simp [h1])
        · exact Or.inl h1
    · exact Or.inr (List.mem_cons_of_mem _ h1)

/-- The seed is an Inside voxel. -/
theorem pickSeed_inside (g : VoxelGrid) (consumed : List Voxel) (seed : Voxel)
    (h : pickSeed g consumed = some seed) : g.classAt seed = VoxelClass.Inside := by
  unfold pickSeed at h
  rcases foldl_best_mem g _ none seed h with h1 | h1
  · simp at h1
  · rw [List.mem_filter] at h1
    simp only [Bool.and_eq_true, decide_eq_true_eq] at h1
    exact h1.2.1

theorem bestExtent_mem (l : List Extent) : ∀ e : Extent, bestExtent l = some e → e ∈ l := by
  induction l with
  | nil => intro e h; simp [bestExtent] at h
  | cons a l ih =>
    intro e h
    unfold bestExtent at h
    split at h
    · simp only [Option.some.injEq] at h
      simp [h]
    · rename_i b hb
      split_ifs at h
      · simp only [Option.some.injEq] at h
        subst h
        exact List.mem_cons_of_mem _ (ih b hb)
      · simp only [Option.some.injEq] at h
        simp [h]

/-- Every Extent the grower produces satisfies the conservativeness invariant.
The proof is by induction over the loop; inside one round of the loop the
invariant starts at the seed and is kept by every growth step. -/
theorem growExtents_allInside (g : VoxelGrid) (policies : List GrowthPolicy) (maxStep : Nat)
    (ceiling : Nat) : ∀ consumed : List Voxel,
      ∀ e ∈ growExtents g policies maxStep ceiling consumed, e.allInside g := by
  induction ceiling with
  | zero => intro consumed e he; simp [growExtents] at he
  | succ n ih =>
    intro consumed e he
    unfold growExtents at he
    split at he
    · simp at he
    · rename_i seed hseed
      split at he
      · simp at he
      · rename_i b hb
        rcases List.mem_cons.1 he with h1 | h1
        · subst h1
          have hmem := bestExtent_mem _ _ hb
          rw [List.mem_map] at hmem
          obtain ⟨p, _, hp⟩ := hmem
          rw [← hp]
          apply growBox_allInside
          intro v hv
          have hvs : v = seed := by
            cases v; cases seed
            simp only [Extent.covers] at hv
            simp only [Voxel.mk.injEq]
            omega
          rw [hvs]
          exact pickSeed_inside g consumed seed hseed
        · exact ih _ e h1

/-- C9: for every grid the Voxelizer and the Classifier can produce, every
selection of growth policies and every bound, each Extent in the result of the
grower covers only voxels classified Inside; it overlaps no Boundary and no
Outside voxel. -/
theorem C9_extents_cover_only_inside_voxels (g : VoxelGrid) (flags : List GrowthPolicy)
    (maxStep ceiling : Nat) (e : Extent)
    (he : e ∈ generateExtents g flags maxStep ceiling) (v : Voxel) (hv : e.covers v) :
    g.classAt v = VoxelClass.Inside
    ∧ g.classAt v ≠ VoxelClass.Boundary ∧ g.classAt v ≠ VoxelClass.Outside := by
  have h := growExtents_allInside g (enabledPolicies flags) maxStep ceiling [] e he v hv
  rw [h]
  exact ⟨rfl, by decide, by decide⟩

theorem C9_extents_cover_only_inside_voxels_witness :
    (⟨1, 1, 1, 2, 1, 1, GrowthPolicy.Regular⟩ : Extent)
        ∈ generateExtents sampleGrid [GrowthPolicy.Regular] 8 8
    ∧ (⟨1, 1, 1, 2, 1, 1, GrowthPolicy.Regular⟩ : Extent).covers ⟨2, 1, 1⟩
    ∧ sampleGrid.classAt ⟨2, 1, 1⟩ = VoxelClass.Inside
    ∧ sampleGrid.classAt ⟨2, 1, 1⟩ ≠ VoxelClass.Boundary
    ∧ sampleGrid.classAt ⟨2, 1, 1⟩ ≠ VoxelClass.Outside :=
  ⟨by decide, by decide,
   C9_extents_cover_only_inside_voxels sampleGrid [GrowthPolicy.Regular] 8 8
     ⟨1, 1, 1, 2, 1, 1, GrowthPolicy.Regular⟩ (by decide) ⟨2, 1, 1⟩ (by decide)⟩

/-! ### The failure return of `LoadModelMesh` -/

/-- When the parser reports an error or returns false, `LoadModelMesh` returns
false and has changed nothing but the shader program. -/
theorem LoadModelMesh_of_parse_failed (env : Env) (model_path : String)
    (melt_params : MeltParams) (out_model_mesh : ModelMesh) (buf : List Vec3) (gl : GLState)
    (hfail : (parseModel env model_path).error ≠ ""
      ∨ (parseModel env model_path).obj_parsing_res = false) :
    LoadModelMesh env model_path melt_params out_model_mesh buf gl
      = some ⟨false, melt_params, (createShaderProgram env out_model_mesh gl).1, buf,
          (createShaderProgram env out_model_mesh gl).2⟩ := by
  unfold LoadModelMesh
  simp only
  rcases hfail with h | h
  · rw [if_pos h]
  · by_cases h1 : (parseModel env model_path).error ≠ ""
    · rw [if_pos h1]
    · rw [if_neg h1, if_pos h]

/-- When `LoadModelMesh` returns false, the parser has reported an error or
returned false. -/
theorem LoadModelMesh_false (env : Env) (model_path : String) (melt_params : MeltParams)
    (out_model_mesh : ModelMesh) (buf : List Vec3) (gl : GLState) (r : LoadResult)
    (hload : LoadModelMesh env model_path melt_params out_model_mesh buf gl = some r)
    (hret : r.ret = false) :
    (parseModel env model_path).error ≠ ""
      ∨ (parseModel env model_path).obj_parsing_res = false := by
  by_cases h1 : (parseModel env model_path).error ≠ ""
  · exact Or.inl h1
  · by_cases h2 : (parseModel env model_path).obj_parsing_res = false
    · exact Or.inr h2
    · exfalso
      unfold LoadModelMesh at hload
      simp only at hload
      rw [if_neg h1, if_neg h2] at hload
      split_ifs at hload
      split at hload
      · simp at hload
      · simp only [Option.some.injEq] at hload
        rw [← hload] at hret
        simp at hret

/-- C11: whenever `LoadModelMesh` returns false, the parser has reported an error
or returned false, `melt_params.mesh.vertices` and `melt_params.mesh.indices` are
what they were before the call, and `ComputeMeshConservativeOcclusion` on that
path returns false, from any state, without a call of `MeltGenerateOccluder`: the
record of calls, the result and the parameters are those from before. -/
theorem C11_failed_load_is_atomic (env : Env) (model_path : String)
    (melt_params : MeltParams) (out_model_mesh : ModelMesh) (buf : List Vec3) (gl : GLState)
    (r : LoadResult)
    (hload : LoadModelMesh env model_path melt_params out_model_mesh buf gl = some r)
    (hret : r.ret = false) (st : AppState) :
    ((parseModel env model_path).error ≠ ""
      ∨ (parseModel env model_path).obj_parsing_res = false)
    ∧ r.melt_params.mesh.vertices = melt_params.mesh.vertices
    ∧ r.melt_params.mesh.indices = melt_params.mesh.indices
    ∧ (ComputeMeshConservativeOcclusion env model_path st).map (fun x => x.1) = some false
    ∧ (ComputeMeshConservativeOcclusion env model_path st).map
        (fun x => x.2.generate_calls) = some st.generate_calls
    ∧ (ComputeMeshConservativeOcclusion env model_path st).map
        (fun x => x.2.melt_result) = some st.melt_result
    ∧ (ComputeMeshConservativeOcclusion env model_path st).map
        (fun x => x.2.melt_params) = some st.melt_params := by
  have hfail := LoadModelMesh_false env model_path melt_params out_model_mesh buf gl r
    hload hret
  have hr := LoadModelMesh_of_parse_failed env model_path melt_params out_model_mesh buf gl
    hfail
  rw [hr] at hload
  simp only [Option.some.injEq] at hload
  have hc : ComputeMeshConservativeOcclusion env model_path st
      = some (false, { st with
          model_mesh := (createShaderProgram env st.model_mesh
            (deleteHandles st.model_mesh st.gl)).1,
          gl := (createShaderProgram env st.model_mesh
            (deleteHandles st.model_mesh st.gl)).2 }) := by
    unfold ComputeMeshConservativeOcclusion
    simp only
    rw [LoadModelMesh_of_parse_failed env model_path st.melt_params st.model_mesh []
      (deleteHandles st.model_mesh st.gl) hfail]
    simp
  refine ⟨hfail, ?_, ?_, ?_, ?_, ?_, ?_⟩
  · rw [← hload]
  · rw [← hload]
  · rw [hc]; rfl
  · rw [hc]; rfl
  · rw [hc]; rfl
  · rw [hc]; rfl

theorem C11_failed_load_is_atomic_witness :
    LoadModelMesh objEnv "notes.txt" twoTrianglesDropped.melt_params
        twoTrianglesDropped.model_mesh []
        (deleteHandles twoTrianglesDropped.model_mesh twoTrianglesDropped.gl)
      = some notesLoaded
    ∧ notesLoaded.ret = false
    ∧ ((parseModel objEnv "notes.txt").error ≠ ""
      ∨ (parseModel objEnv "notes.txt").obj_parsing_res = false)
    ∧ notesLoaded.melt_params.mesh.vertices = twoTrianglesDropped.melt_params.mesh.vertices
    ∧ notesLoaded.melt_params.mesh.indices = twoTrianglesDropped.melt_params.mesh.indices
    ∧ (ComputeMeshConservativeOcclusion objEnv "notes.txt" twoTrianglesDropped).map
        (fun x => x.1) = some false
    ∧ (ComputeMeshConservativeOcclusion objEnv "notes.txt" twoTrianglesDropped).map
        (fun x => x.2.generate_calls) = some twoTrianglesDropped.generate_calls
    ∧ (ComputeMeshConservativeOcclusion objEnv "notes.txt" twoTrianglesDropped).map
        (fun x => x.2.melt_result) = some twoTrianglesDropped.melt_result
    ∧ (ComputeMeshConservativeOcclusion objEnv "notes.txt" twoTrianglesDropped).map
        (fun x => x.2.melt_params) = some twoTrianglesDropped.melt_params :=
  ⟨by decide, by decide,
   C11_failed_load_is_atomic objEnv "notes.txt" twoTrianglesDropped.melt_params
     twoTrianglesDropped.model_mesh []
     (deleteHandles twoTrianglesDropped.model_mesh twoTrianglesDropped.gl) notesLoaded
     (by decide) (by decide) twoTrianglesDropped⟩

/-! ### The success return of `LoadModelMesh` -/

/-- The position an index refers to is what line 185 reads for it, as long as the
32-bit product `indices[f] * 3` does not wrap. -/
theorem positionOf_eq_readVec3 (s : Shape) (i : Nat) (h : i * 3 < 2 ^ 32) :
    positionOf s i = readVec3 s.positions ((i * 3) % 2 ^ 32) := by
  unfold positionOf readVec3
  rw [Nat.mod_eq_of_lt h, Nat.mul_comm 3 i]

/-- What the loop of lines 183-188 does to the buffer for one shape, given that it
runs without leaving the buffer. -/
theorem fillShape_spec (positions : List ℚ) (idxs : List Nat) :
    ∀ (buf : List Vec3) (oi : Nat) (buf1 : List Vec3) (oi1 : Nat),
      fillShape positions idxs buf oi = some (buf1, oi1) →
      oi1 = oi + 2 * idxs.length
      ∧ buf1.length = buf.length
      ∧ (idxs ≠ [] → oi1 ≤ buf.length)
      ∧ (∀ j, j < oi ∨ oi1 ≤ j → buf1[j]? = buf[j]?)
      ∧ ∀ k, k < idxs.length →
          (idxs.map fun i => readVec3 positions ((i * 3) % 2 ^ 32))[k]?
            = some (buf1[oi + 2 * k]?)
          ∧ buf1[oi + 2 * k + 1]? = some ⟨1, half, half⟩ := by
  induction idxs with
  | nil =>
    intro buf oi buf1 oi1 h
    simp only [fillShape, Option.some.injEq, Prod.mk.injEq] at h
    obtain ⟨rfl, rfl⟩ := h
    simp
  | cons idx rest ih =>
    intro buf oi buf1 oi1 h
    unfold fillShape at h
    split at h
    · simp at h
    · rename_i p hp
      split_ifs at h with hlt
      obtain ⟨h1, h2, h3, h4, h5⟩ := ih _ _ _ _ h
      simp only [List.length_set] at h2 h3
      refine ⟨by simp only [List.length_cons]; omega, h2, fun _ => ?_, ?_, ?_⟩
      · by_cases hr : rest = []
        · subst hr; simp only [List.length_nil] at h1; omega
        · exact h3 hr
      · intro j hj
        rw [h4 j (by omega)]
        rw [List.getElem?_set_ne (by omega), List.getElem?_set_ne (by omega)]
      · intro k hk
        cases k with
        | zero =>
          have e0 : buf1[oi]? = some p := by
            rw [h4 oi (by omega), List.getElem?_set_ne (by omega),
              List.getElem?_set_self (by omega)]
          have e1 : buf1[oi + 1]? = some ⟨1, half, half⟩ := by
            rw [h4 (oi + 1) (by omega), List.getElem?_set_self (by simp; omega)]
          simp only [List.map_cons, List.getElem?_cons_zero, hp, Nat.mul_zero, Nat.add_zero,
            e0, e1, and_self]
        | succ k =>
          have hk1 : k < rest.length := by simpa using hk
          obtain ⟨e0, e1⟩ := h5 k hk1
          have a0 : oi + 2 * (k + 1) = oi + 2 + 2 * k := by omega
          rw [a0]
          exact ⟨by simpa using e0, e1⟩

theorem totalIndexCount_cons (s : Shape) (rest : List Shape) :
    totalIndexCount (s :: rest) = s.indices.length + totalIndexCount rest := by
  simp [totalIndexCount]

theorem bufferReads_cons (s : Shape) (rest : List Shape) :
    bufferReads (s :: rest)
      = (s.indices.map fun i => readVec3 s.positions ((i * 3) % 2 ^ 32))
          ++ bufferReads rest := by
  simp only [bufferReads, List.flatMap_cons]

/-- When no product `indices[f] * 3` wraps, what line 185 reads for each index is
the position that index refers to. -/
theorem bufferReads_eq_indexedPositions (shapes : List Shape)
    (hnowrap : ∀ s ∈ shapes, ∀ i ∈ s.indices, i * 3 < 2 ^ 32) :
    bufferReads shapes = indexedPositions shapes := by
  induction shapes with
  | nil => rfl
  | cons s rest ih =>
    rw [bufferReads_cons, ih (fun t ht => hnowrap t (List.mem_cons_of_mem _ ht))]
    simp only [indexedPositions, List.flatMap_cons]
    congr 1
    exact List.map_congr_left fun i hi =>
      (positionOf_eq_readVec3 s i (hnowrap s (List.mem_cons_self _ _) i hi)).symm

/-- What the loop of lines 181-189 does to the buffer, given that it runs without
leaving the buffer: entry `2 * k` is what line 185 reads for the k-th index and
entry `2 * k + 1` is the colour. -/
theorem fillBuffer_spec (shapes : List Shape) :
    ∀ (buf : List Vec3) (oi : Nat) (buf1 : List Vec3) (oi1 : Nat),
      fillBuffer shapes buf oi = some (buf1, oi1) →
      oi1 = oi + 2 * totalIndexCount shapes
      ∧ buf1.length = buf.length
      ∧ (totalIndexCount shapes ≠ 0 → oi1 ≤ buf.length)
      ∧ (∀ j, j < oi ∨ oi1 ≤ j → buf1[j]? = buf[j]?)
      ∧ ∀ k, k < totalIndexCount shapes →
          (bufferReads shapes)[k]? = some (buf1[oi + 2 * k]?)
          ∧ buf1[oi + 2 * k + 1]? = some ⟨1, half, half⟩ := by
  induction shapes with
  | nil =>
    intro buf oi buf1 oi1 h
    simp only [fillBuffer, Option.some.injEq, Prod.mk.injEq] at h
    obtain ⟨rfl, rfl⟩ := h
    simp [totalIndexCount, bufferReads]
  | cons s rest ih =>
    intro buf oi buf1 oi1 h
    unfold fillBuffer at h
    split at h
    · simp at h
    · rename_i b1 o1 hs
      obtain ⟨s1, s2, s3, s4, s5⟩ := fillShape_spec s.positions s.indices buf oi b1 o1 hs
      obtain ⟨h1, h2, h3, h4, h5⟩ := ih b1 o1 buf1 oi1 h
      rw [totalIndexCount_cons, bufferReads_cons]
      have hne : s.indices ≠ [] ↔ s.indices.length ≠ 0 := by
        simp [List.length_eq_zero]
      refine ⟨by omega, by omega, fun hT => ?_, ?_, ?_⟩
      · by_cases hr : totalIndexCount rest = 0
        · have := s3 (hne.2 (by omega))
          omega
        · have := h3 hr
          omega
      · intro j hj
        rw [h4 j (by omega), s4 j (by omega)]
      · intro k hk
        by_cases hkn : k < s.indices.length
        · obtain ⟨e0, e1⟩ := s5 k hkn
          rw [List.getElem?_append_left (by simpa using hkn), h4 (oi + 2 * k) (by omega),
            h4 (oi + 2 * k + 1) (by omega)]
          exact ⟨e0, e1⟩
        · obtain ⟨e0, e1⟩ := h5 (k - s.indices.length) (by omega)
          have a0 : o1 + 2 * (k - s.indices.length) = oi + 2 * k := by omega
          rw [a0] at e0 e1
          rw [List.getElem?_append_right (by simpa using Nat.le_of_not_lt hkn)]
          simp only [List.length_map]
          exact ⟨e0, e1⟩

theorem resize_length (buf : List Vec3) (n : Nat) : (resize buf n).length = n := by
  simp only [resize, List.length_append, List.length_take, List.length_replicate]
  omega

/-- The conversion to `int` changes a number by a multiple of 2^32. -/
theorem toInt32_eq (n : Int) : ∃ q : Int, toInt32 n = n + q * 4294967296 := by
  refine ⟨-((n + 2147483648) / 4294967296), ?_⟩
  unfold toInt32
  norm_num
  omega

/-- The counting loop of lines 175-177 yields the sum of the index counts up to a
multiple of 2^32. -/
theorem foldl_count_eq (shapes : List Shape) :
    ∀ a : Int, ∃ q : Int,
      shapes.foldl (fun acc s => toInt32 (acc + (s.indices.length : Int))) a
        = a + (totalIndexCount shapes : Int) + q * 4294967296 := by
  induction shapes with
  | nil => intro a; exact ⟨0, by simp [totalIndexCount]⟩
  | cons s rest ih =>
    intro a
    obtain ⟨q0, hq0⟩ := toInt32_eq (a + (s.indices.length : Int))
    obtain ⟨q1, hq1⟩ := ih (toInt32 (a + (s.indices.length : Int)))
    refine ⟨q0 + q1, ?_⟩
    rw [List.foldl_cons, hq1, hq0, totalIndexCount_cons]
    push_cast
    ring

/-- What a success return of `LoadModelMesh` says about the locals of lines
175-189: `VertexCount` is the result of the counting loop, twice its value fits an
`int` and is not negative, and the filling loop has run to its end on the resized
buffer. -/
theorem LoadModelMesh_true_buffer (env : Env) (model_path : String)
    (melt_params : MeltParams) (out_model_mesh : ModelMesh) (buf : List Vec3) (gl : GLState)
    (r : LoadResult)
    (hload : LoadModelMesh env model_path melt_params out_model_mesh buf gl = some r)
    (hret : r.ret = true) :
    r.out_model_mesh.VertexCount = countVertices (parseModel env model_path).shapes
    ∧ 0 ≤ r.out_model_mesh.VertexCount * 2
    ∧ r.out_model_mesh.VertexCount * 2 < 2 ^ 31
    ∧ ∃ oi1, fillBuffer (parseModel env model_path).shapes
        (resize buf (r.out_model_mesh.VertexCount * 2).toNat) 0
        = some (r.out_buffer_data, oi1) := by
  unfold LoadModelMesh at hload
  simp only at hload
  split_ifs at hload with h1 h2 h3
  · simp only [Option.some.injEq] at hload
    rw [← hload] at hret
    simp at hret
  · simp only [Option.some.injEq] at hload
    rw [← hload] at hret
    simp at hret
  · split at hload
    · simp at hload
    · rename_i b oi1 hfill
      simp only [Option.some.injEq] at hload
      rw [← hload]
      simp only [not_or, not_lt, not_le] at h3
      exact ⟨rfl, h3.1, h3.2, oi1, hfill⟩

theorem readVec3_in_range (positions : List ℚ) (i : Nat) (h : i < positions.length / 3) :
    ∃ p, readVec3 positions ((i * 3) % 2 ^ 32) = some p := by
  have hmod : (i * 3) % 2 ^ 32 ≤ i * 3 := Nat.mod_le _ _
  have h2 : (i * 3) % 2 ^ 32 + 2 < positions.length := by omega
  unfold readVec3
  simp only [List.get?_eq_getElem?]
  rw [List.getElem?_eq_getElem (by omega), List.getElem?_eq_getElem (by omega),
    List.getElem?_eq_getElem h2]
  exact ⟨_, rfl⟩

/-- The loop of lines 183-188 runs to its end when the indices are in range of the
positions and the buffer has room for two entries per index. -/
theorem fillShape_succeeds (positions : List ℚ) (idxs : List Nat)
    (hrange : ∀ i ∈ idxs, i < positions.length / 3) :
    ∀ (buf : List Vec3) (oi : Nat), oi + 2 * idxs.length ≤ buf.length →
      ∃ r, fillShape positions idxs buf oi = some r := by
  induction idxs with
  | nil => intro buf oi _; exact ⟨_, rfl⟩
  | cons idx rest ih =>
    intro buf oi hroom
    obtain ⟨p, hp⟩ := readVec3_in_range positions idx (hrange idx (List.mem_cons_self _ _))
    simp only [List.length_cons] at hroom
    unfold fillShape
    simp only [hp]
    rw [if_pos (by omega)]
    exact ih (fun i hi => hrange i (List.mem_cons_of_mem _ hi)) _ _
      (by simp only [List.length_set]; omega)

/-- The loop of lines 181-189 runs to its end when every index is in range of its
own shape and the buffer has room for two entries per index. -/
theorem fillBuffer_succeeds (shapes : List Shape)
    (hrange : ∀ s ∈ shapes, ∀ i ∈ s.indices, i < s.positions.length / 3) :
    ∀ (buf : List Vec3) (oi : Nat), oi + 2 * totalIndexCount shapes ≤ buf.length →
      ∃ r, fillBuffer shapes buf oi = some r := by
  induction shapes with
  | nil => intro buf oi _; exact ⟨_, rfl⟩
  | cons s rest ih =>
    intro buf oi hroom
    rw [totalIndexCount_cons] at hroom
    obtain ⟨⟨b1, o1⟩, hs⟩ := fillShape_succeeds s.positions s.indices
      (hrange s (List.mem_cons_self _ _)) buf oi (by omega)
    obtain ⟨s1, s2, _, _, _⟩ := fillShape_spec _ _ _ _ _ _ hs
    unfold fillBuffer
    simp only [hs]
    exact ih (fun t ht => hrange t (List.mem_cons_of_mem _ ht)) b1 o1 (by omega)

theorem toInt32_of_small (n : Int) (h0 : 0 ≤ n) (h1 : n < 2147483648) : toInt32 n = n := by
  unfold toInt32
  norm_num
  omega

/-- The counting loop of lines 175-177 yields the sum of the index counts when
that sum fits an `int`. -/
theorem foldl_count_small (shapes : List Shape) :
    ∀ a : Int, 0 ≤ a → a + (totalIndexCount shapes : Int) < 2147483648 →
      shapes.foldl (fun acc s => toInt32 (acc + (s.indices.length : Int))) a
        = a + (totalIndexCount shapes : Int) := by
  induction shapes with
  | nil => intro a _ _; simp [totalIndexCount]
  | cons s rest ih =>
    intro a h0 h1
    rw [totalIndexCount_cons] at h1 ⊢
    push_cast at h1 ⊢
    rw [List.foldl_cons, toInt32_of_small _ (by omega) (by omega), ih _ (by omega) (by omega)]
    ring

/-- The function `LoadModelMesh` returns true, with a defined result, whenever the
parser succeeds, every index is in range of its own shape and there are fewer than
2^30 indices in all. -/
theorem LoadModelMesh_succeeds (env : Env) (model_path : String)
    (melt_params : MeltParams) (out_model_mesh : ModelMesh) (buf : List Vec3) (gl : GLState)
    (herr : (parseModel env model_path).error = "")
    (hres : (parseModel env model_path).obj_parsing_res = true)
    (hrange : ∀ s ∈ (parseModel env model_path).shapes,
      ∀ i ∈ s.indices, i < s.positions.length / 3)
    (hsmall : totalIndexCount (parseModel env model_path).shapes < 2 ^ 30) :
    (LoadModelMesh env model_path melt_params out_model_mesh buf gl).map (fun r => r.ret)
      = some true := by
  norm_num at hsmall
  have hvc : countVertices (parseModel env model_path).shapes
      = (totalIndexCount (parseModel env model_path).shapes : Int) := by
    rw [countVertices, foldl_count_small _ 0 (le_refl 0) (by omega)]
    ring
  obtain ⟨⟨b, o⟩, hfill⟩ := fillBuffer_succeeds _ hrange
    (resize buf (countVertices (parseModel env model_path).shapes * 2).toNat) 0
    (by rw [resize_length, hvc]; omega)
  unfold LoadModelMesh
  simp only [herr, hres, ne_eq, not_true_eq_false, if_false, Bool.true_eq_false]
  rw [if_neg (by rw [hvc]; norm_num; omega)]
  simp only [hfill, Option.map_some']

/-- The layout of `out_buffer_data` on a success return of `LoadModelMesh`, for
every list of parsed shapes: `VertexCount` is the sum of the index counts, the
buffer has `2 * VertexCount` entries, entry `2 * k` holds what line 185 reads for
the k-th index (the three floats at the 32-bit offset `indices[f] * 3`) and entry
`2 * k + 1` the colour. -/
theorem LoadModelMesh_true_layout (env : Env) (model_path : String)
    (melt_params : MeltParams) (out_model_mesh : ModelMesh) (buf : List Vec3) (gl : GLState)
    (r : LoadResult)
    (hload : LoadModelMesh env model_path melt_params out_model_mesh buf gl = some r)
    (hret : r.ret = true) :
    r.out_model_mesh.VertexCount = (totalIndexCount (parseModel env model_path).shapes : Int)
    ∧ (r.out_buffer_data.length : Int) = 2 * r.out_model_mesh.VertexCount
    ∧ ∀ k : Nat, (k : Int) < r.out_model_mesh.VertexCount →
        (∃ p : Vec3, (bufferReads (parseModel env model_path).shapes).get? k
            = some (some p) ∧ r.out_buffer_data.get? (2 * k) = some p)
        ∧ r.out_buffer_data.get? (2 * k + 1) = some ⟨1, half, half⟩ := by
  obtain ⟨hvc, h0, h31, oi1, hfill⟩ := LoadModelMesh_true_buffer env model_path melt_params
    out_model_mesh buf gl r hload hret
  obtain ⟨_, f2, f3, _, f5⟩ := fillBuffer_spec _ _ _ _ _ hfill
  rw [resize_length] at f2 f3
  obtain ⟨q, hq⟩ := foldl_count_eq (parseModel env model_path).shapes 0
  have hq1 : r.out_model_mesh.VertexCount
      = (totalIndexCount (parseModel env model_path).shapes : Int) + q * 4294967296 := by
    rw [hvc, countVertices, hq]; ring
  norm_num at h31
  have hcount : r.out_model_mesh.VertexCount
      = (totalIndexCount (parseModel env model_path).shapes : Int) := by
    by_cases hT : totalIndexCount (parseModel env model_path).shapes = 0
    · rw [hT] at hq1 ⊢
      omega
    · have := f3 hT
      omega
  refine ⟨hcount, by omega, ?_⟩
  intro k hk
  have hkT : k < totalIndexCount (parseModel env model_path).shapes := by omega
  obtain ⟨e0, e1⟩ := f5 k hkT
  simp only [Nat.zero_add] at e0 e1
  simp only [List.get?_eq_getElem?]
  refine ⟨?_, e1⟩
  have hlt : 2 * k < r.out_buffer_data.length := by omega
  refine ⟨r.out_buffer_data[2 * k], ?_, List.getElem?_eq_getElem hlt⟩
  rw [e0, List.getElem?_eq_getElem hlt]

/-- C12, as stated, fails: for one shape of two vertices whose only index is
1431655766, the 32-bit product `1431655766 * 3` is 2, so `LoadModelMesh` returns
true with `VertexCount` 1 and entry 0 equal to (12, 13, 14), the floats at offset
2, although that index refers to no position of the shape. -/
theorem C12_wrapped_index_reads_other_floats :
    (LoadModelMesh wrapEnv "big.obj" sampleParams ModelMesh.zero [] emptyGL).map
        (fun r => r.ret) = some true
    ∧ (LoadModelMesh wrapEnv "big.obj" sampleParams ModelMesh.zero [] emptyGL).map
        (fun r => r.out_model_mesh.VertexCount) = some 1
    ∧ (LoadModelMesh wrapEnv "big.obj" sampleParams ModelMesh.zero [] emptyGL).map
        (fun r => r.out_buffer_data) = some [⟨12, 13, 14⟩, ⟨1, half, half⟩]
    ∧ (indexedPositions (parseModel wrapEnv "big.obj").shapes).get? 0 = some none := by
  decide

/-- C12, amended: when no 32-bit product `indices[f] * 3` wraps, that is when three
times every index of every parsed shape is below 2^32, and `LoadModelMesh` returns
true, then `VertexCount` is the sum of the index counts of the parsed shapes,
`out_buffer_data` has `2 * VertexCount` entries, and for every `k < VertexCount`
entry `2 * k` is the position the k-th index refers to (shapes in order, indices
in order within a shape) and entry `2 * k + 1` is the colour (1, 0.5, 0.5),
whatever `out_buffer_data` held before the call. -/
theorem C12_render_buffer_layout_without_wrap (env : Env) (model_path : String)
    (melt_params : MeltParams) (out_model_mesh : ModelMesh) (buf : List Vec3) (gl : GLState)
    (r : LoadResult)
    (hnowrap : ∀ s ∈ (parseModel env model_path).shapes, ∀ i ∈ s.indices, i * 3 < 2 ^ 32)
    (hload : LoadModelMesh env model_path melt_params out_model_mesh buf gl = some r)
    (hret : r.ret = true) :
    r.out_model_mesh.VertexCount = (totalIndexCount (parseModel env model_path).shapes : Int)
    ∧ (r.out_buffer_data.length : Int) = 2 * r.out_model_mesh.VertexCount
    ∧ ∀ k : Nat, (k : Int) < r.out_model_mesh.VertexCount →
        (∃ p : Vec3, (indexedPositions (parseModel env model_path).shapes).get? k
            = some (some p) ∧ r.out_buffer_data.get? (2 * k) = some p)
        ∧ r.out_buffer_data.get? (2 * k + 1) = some ⟨1, half, half⟩ := by
  rw [← bufferReads_eq_indexedPositions _ hnowrap]
  exact LoadModelMesh_true_layout env model_path melt_params out_model_mesh buf gl r
    hload hret

theorem C12_render_buffer_layout_without_wrap_witness :
    (∀ s ∈ (parseModel objEnv "two.obj").shapes, ∀ i ∈ s.indices, i * 3 < 2 ^ 32)
    ∧ LoadModelMesh objEnv "two.obj" sampleParams ModelMesh.zero
        [⟨7, 7, 7⟩, ⟨8, 8, 8⟩, ⟨9, 9, 9⟩] emptyGL = some twoTrianglesOverOld
    ∧ twoTrianglesOverOld.ret = true
    ∧ twoTrianglesOverOld.out_model_mesh.VertexCount = 6
    ∧ twoTrianglesOverOld.out_buffer_data.get? (2 * 4) = some ⟨1, 0, 1⟩
    ∧ (twoTrianglesOverOld.out_model_mesh.VertexCount
          = (totalIndexCount (parseModel objEnv "two.obj").shapes : Int)
      ∧ (twoTrianglesOverOld.out_buffer_data.length : Int)
          = 2 * twoTrianglesOverOld.out_model_mesh.VertexCount
      ∧ ∀ k : Nat, (k : Int) < twoTrianglesOverOld.out_model_mesh.VertexCount →
          (∃ p : Vec3, (indexedPositions (parseModel objEnv "two.obj").shapes).get? k
              = some (some p) ∧ twoTrianglesOverOld.out_buffer_data.get? (2 * k) = some p)
          ∧ twoTrianglesOverOld.out_buffer_data.get? (2 * k + 1) = some ⟨1, half, half⟩) :=
  ⟨by decide, by decide, by decide, by decide, by decide,
   C12_render_buffer_layout_without_wrap objEnv "two.obj" sampleParams ModelMesh.zero
     [⟨7, 7, 7⟩, ⟨8, 8, 8⟩, ⟨9, 9, 9⟩] emptyGL twoTrianglesOverOld (by decide) (by decide)
     (by decide)⟩

/-! ### `FPSCameraViewMatrix` -/

theorem M_PI_2_pos : 0 < M_PI_2 := by decide

/-- The two tests of lines 229-230, one after the other, clamp `-rotation[0]` to the
interval from `-M_PI_2` to `M_PI_2`. -/
theorem clampPitch_cases (x : ℚ) :
    clampPitch x = max (-M_PI_2) (min M_PI_2 (-x))
    ∧ (-x ≥ M_PI_2 → clampPitch x = M_PI_2)
    ∧ (-x ≤ -M_PI_2 → clampPitch x = -M_PI_2)
    ∧ (¬ (-x ≥ M_PI_2) → ¬ (-x ≤ -M_PI_2) → clampPitch x = -x) := by
  have hP := M_PI_2_pos
  unfold clampPitch
  simp only [ge_iff_le]
  refine ⟨?_, ?_, ?_, ?_⟩
  · by_cases h1 : M_PI_2 ≤ -x
    · rw [if_pos h1, if_neg (show ¬ M_PI_2 ≤ -M_PI_2 by linarith), min_eq_left h1,
        max_eq_right (by linarith)]
    · rw [if_neg h1, min_eq_right (le_of_not_le h1)]
      by_cases h2 : -x ≤ -M_PI_2
      · rw [if_pos h2, max_eq_left h2]
      · rw [if_neg h2, max_eq_right (le_of_not_le h2)]
  · intro h1
    rw [if_pos h1, if_neg (show ¬ M_PI_2 ≤ -M_PI_2 by linarith)]
  · intro h2
    rw [if_neg (show ¬ M_PI_2 ≤ -x by linarith), if_pos h2]
  · intro h1 h2
    rw [if_neg h1, if_neg h2]

/-- C13: in every call of `FPSCameraViewMatrix` the pitch from which the forward
vector is built is `-rotation[0]`, for the accumulated rotation, clamped to the
closed interval from `-M_PI_2` to `M_PI_2`: `M_PI_2` when `-rotation[0] >= M_PI_2`,
`-M_PI_2` when `-rotation[0] <= -M_PI_2` and `-rotation[0]` otherwise; and when
`ignore_input` is true the stored position and rotation are those from before the
call and `lastMouse` is the current cursor position. -/
theorem C13_pitch_clamped_and_input_ignored (fm : FloatMath) (inp : WindowInput)
    (ignore_input : Bool) (c : CameraStatics) :
    (FPSCameraViewMatrix fm inp ignore_input c).1.view
        = fm.lookAt (FPSCameraViewMatrix fm inp ignore_input c).2.position
            (vadd fm (FPSCameraViewMatrix fm inp ignore_input c).2.position
              (forwardVector fm (pitchUsed fm inp ignore_input c)
                (FPSCameraViewMatrix fm inp ignore_input c).2.rotation.2))
            ⟨0, 1, 0⟩
    ∧ pitchUsed fm inp ignore_input c
        = max (-M_PI_2) (min M_PI_2 (-(FPSCameraViewMatrix fm inp ignore_input c).2.rotation.1))
    ∧ (-(FPSCameraViewMatrix fm inp ignore_input c).2.rotation.1 ≥ M_PI_2 →
        pitchUsed fm inp ignore_input c = M_PI_2)
    ∧ (-(FPSCameraViewMatrix fm inp ignore_input c).2.rotation.1 ≤ -M_PI_2 →
        pitchUsed fm inp ignore_input c = -M_PI_2)
    ∧ (¬ (-(FPSCameraViewMatrix fm inp ignore_input c).2.rotation.1 ≥ M_PI_2) →
        ¬ (-(FPSCameraViewMatrix fm inp ignore_input c).2.rotation.1 ≤ -M_PI_2) →
        pitchUsed fm inp ignore_input c
          = -(FPSCameraViewMatrix fm inp ignore_input c).2.rotation.1)
    ∧ (ignore_input = true →
        (FPSCameraViewMatrix fm inp ignore_input c).2.position = c.position
        ∧ (FPSCameraViewMatrix fm inp ignore_input c).2.rotation = c.rotation
        ∧ (FPSCameraViewMatrix fm inp ignore_input c).2.lastMouse = inp.mouse
        ∧ (FPSCameraViewMatrix fm inp ignore_input c).1.position = c.position) := by
  have hrot : (FPSCameraViewMatrix fm inp ignore_input c).2.rotation
      = updateRotation fm inp ignore_input c := rfl
  obtain ⟨h1, h2, h3, h4⟩ := clampPitch_cases (updateRotation fm inp ignore_input c).1
  rw [hrot]
  refine ⟨rfl, h1, h2, h3, h4, ?_⟩
  intro hig
  subst hig
  simp [FPSCameraViewMatrix, updateRotation, movePosition]

theorem C13_pitch_clamped_and_input_ignored_witness :
    -(FPSCameraViewMatrix sampleMath dragInput true turnedCamera).2.rotation.1 ≤ -M_PI_2
    ∧ pitchUsed sampleMath dragInput true turnedCamera = -M_PI_2
    ∧ (FPSCameraViewMatrix sampleMath dragInput true turnedCamera).2.position = ⟨-4, 0, 0⟩
    ∧ (FPSCameraViewMatrix sampleMath dragInput true turnedCamera).2.rotation = (2, 1)
    ∧ (FPSCameraViewMatrix sampleMath dragInput true turnedCamera).2.lastMouse = (130, 90)
    ∧ (FPSCameraViewMatrix sampleMath dragInput true turnedCamera).1.position = ⟨-4, 0, 0⟩ :=
  ⟨by decide,
   (C13_pitch_clamped_and_input_ignored sampleMath dragInput true turnedCamera).2.2.2.1
     (by decide),
   (C13_pitch_clamped_and_input_ignored sampleMath dragInput true turnedCamera).2.2.2.2.2 rfl⟩

/-! ### The voxel size passed to `MeltGenerateOccluder` -/

theorem LoadModelMesh_voxelSize (env : Env) (model_path : String) (melt_params : MeltParams)
    (out_model_mesh : ModelMesh) (buf : List Vec3) (gl : GLState) (r : LoadResult)
    (hload : LoadModelMesh env model_path melt_params out_model_mesh buf gl = some r) :
    r.melt_params.voxelSize = melt_params.voxelSize := by
  unfold LoadModelMesh at hload
  simp only at hload
  split_ifs at hload
  · simp only [Option.some.injEq] at hload
    rw [← hload]
  · simp only [Option.some.injEq] at hload
    rw [← hload]
  · split at hload
    · simp at hload
    · simp only [Option.some.injEq] at hload
      rw [← hload]

/-- A call of `ComputeMeshConservativeOcclusion` leaves `voxelSize` as it is, and
the call of `MeltGenerateOccluder` it makes, if any, is passed that `voxelSize`. -/
theorem ComputeMesh_calls (env : Env) (mesh_path : String) (st st1 : AppState) (b : Bool)
    (h : ComputeMeshConservativeOcclusion env mesh_path st = some (b, st1)) :
    st1.melt_params.voxelSize = st.melt_params.voxelSize
    ∧ ∃ c : List MeltParams, st1.generate_calls = st.generate_calls ++ c
      ∧ ∀ p ∈ c, p.voxelSize = st.melt_params.voxelSize := by
  unfold ComputeMeshConservativeOcclusion at h
  simp only at h
  split at h
  · simp at h
  · rename_i loaded hload
    have hv := LoadModelMesh_voxelSize _ _ _ _ _ _ _ hload
    split_ifs at h with hret
    · simp only [Option.some.injEq, Prod.mk.injEq] at h
      rw [← h.2]
      exact ⟨hv, [], by simp, by simp⟩
    · simp only [glGenVertexArrays, glGenBuffers, Option.some.injEq, Prod.mk.injEq] at h
      rw [← h.2]
      exact ⟨hv, [loaded.melt_params], rfl, by simpa using hv⟩

/-- The drop callbacks of one `glfwPollEvents` leave `voxelSize` as it is, and every
call of `MeltGenerateOccluder` they make is passed that `voxelSize`. -/
theorem pollEvents_calls (env : Env) (drops : List String) :
    ∀ (st st1 : AppState), pollEvents env drops st = some st1 →
      st1.melt_params.voxelSize = st.melt_params.voxelSize
      ∧ ∃ c : List MeltParams, st1.generate_calls = st.generate_calls ++ c
        ∧ (∀ p ∈ c, p.voxelSize = st.melt_params.voxelSize)
        ∧ (drops = [] → c = []) := by
  induction drops with
  | nil =>
    intro st st1 h
    simp only [pollEvents, Option.some.injEq] at h
    rw [← h]
    exact ⟨rfl, [], by simp, by simp, fun _ => rfl⟩
  | cons path rest ih =>
    intro st st1 h
    unfold pollEvents at h
    split at h
    · simp at h
    · rename_i b st0 hc
      obtain ⟨v0, c0, hc0, hp0⟩ := ComputeMesh_calls env path st st0 b hc
      obtain ⟨v1, c1, hc1, hp1, _⟩ := ih st0 st1 h
      refine ⟨by rw [v1, v0], c0 ++ c1, by rw [hc1, hc0, List.append_assoc], ?_, by simp⟩
      intro p hp
      rcases List.mem_append.1 hp with hp | hp
      · exact hp0 p hp
      · rw [hp1 p hp, v0]

theorem buildGui_voxelSize (env : Env) (inp : FrameInput) (g : GuiState) (p : MeltParams) :
    (buildGui env inp g p).melt_params.voxelSize = InputValue p.voxelSize inp.input_voxel_size
    ∧ (buildGui env inp g p).generate_clicked = inp.click_generate
    ∧ (buildGui env inp g p).model_selected = inp.combo_obj_model.isSome := by
  simp [buildGui]

/-- One frame: the calls of `MeltGenerateOccluder` made by the drop callbacks are
passed the `voxelSize` stored before the frame, the calls made for the Generate
button and for a model selection the `voxelSize` after the widgets of the frame,
which is also the one stored after the frame. -/
theorem frame_calls (env : Env) (inp : FrameInput) (s s1 : LoopState)
    (h : frame env inp s = some s1) :
    s1.app.melt_params.voxelSize
        = InputValue s.app.melt_params.voxelSize inp.input_voxel_size
    ∧ ∃ dropCalls guiCalls : List MeltParams,
        s1.app.generate_calls = s.app.generate_calls ++ dropCalls ++ guiCalls
        ∧ (∀ p ∈ dropCalls, p.voxelSize = s.app.melt_params.voxelSize)
        ∧ (∀ p ∈ guiCalls, p.voxelSize
            = InputValue s.app.melt_params.voxelSize inp.input_voxel_size)
        ∧ (inp.drops = [] → dropCalls = [])
        ∧ (inp.click_generate = true → guiCalls ≠ [])
        ∧ (inp.click_generate = false → inp.combo_obj_model = none → guiCalls = []) := by
  unfold frame at h
  split at h
  · simp at h
  · rename_i app1 hpoll
    obtain ⟨v1, D, hD, hDv, hDnil⟩ := pollEvents_calls env inp.drops s.app app1 hpoll
    obtain ⟨bv, bg, bm⟩ := buildGui_voxelSize env inp s.gui app1.melt_params
    rw [v1] at bv
    simp only [bg, bm] at h
    cases hclick : inp.click_generate
    · simp only [hclick, Bool.false_eq_true, if_false] at h
      cases hcombo : inp.combo_obj_model with
      | none =>
        simp only [hcombo, Option.isSome_none, Bool.false_eq_true, if_false,
          Option.some.injEq] at h
        rw [← h]
        exact ⟨bv, D, [], by simp [hD], hDv, by simp, hDnil, by simp, by simp⟩
      | some idx =>
        simp only [hcombo, Option.isSome_some, if_true] at h
        split at h
        · simp at h
        · rename_i b app4 hc
          simp only [Option.some.injEq] at h
          obtain ⟨v4, c, hc4, hcv⟩ := ComputeMesh_calls env _ _ app4 b hc
          rw [← h]
          refine ⟨by rw [v4]; exact bv, D, c, by rw [hc4]; simp [hD], hDv, ?_, hDnil,
            by simp, by simp⟩
          intro p hp
          rw [hcv p hp]
          exact bv
    · simp only [hclick, if_true] at h
      cases hcombo : inp.combo_obj_model with
      | none =>
        simp only [hcombo, Option.isSome_none, Bool.false_eq_true, if_false,
          Option.some.injEq] at h
        rw [← h]
        refine ⟨bv, D, [(buildGui env inp s.gui app1.melt_params).melt_params],
          by simp [generateClicked, hD], hDv, ?_, hDnil, by simp, by simp⟩
        intro p hp
        rw [List.mem_singleton.1 hp]
        exact bv
      | some idx =>
        simp only [hcombo, Option.isSome_some, if_true] at h
        split at h
        · simp at h
        · rename_i b app4 hc
          simp only [Option.some.injEq] at h
          obtain ⟨v4, c, hc4, hcv⟩ := ComputeMesh_calls env _ _ app4 b hc
          rw [← h]
          refine ⟨by rw [v4]; exact bv, D,
            (buildGui env inp s.gui app1.melt_params).melt_params :: c,
            by rw [hc4]; simp [generateClicked, hD], hDv, ?_, hDnil, by simp, by simp⟩
          intro p hp
          rcases List.mem_cons.1 hp with hp | hp
          · rw [hp]; exact bv
          · rw [hcv p hp]
            exact bv

theorem heldVoxelSize_cons (v0 : ℚ) (inp : FrameInput) (rest : List FrameInput) :
    heldVoxelSize v0 (inp :: rest)
      = heldVoxelSize (InputValue v0 inp.input_voxel_size) rest := by
  unfold heldVoxelSize
  rw [List.filterMap_cons]
  cases hv : inp.input_voxel_size with
  | none => simp [InputValue]
  | some v =>
    simp only [InputValue, List.getLast?_cons, Option.getD_some]

theorem heldVoxelSize_append_singleton (v0 : ℚ) (inputs : List FrameInput)
    (inp : FrameInput) :
    heldVoxelSize v0 (inputs ++ [inp])
      = InputValue (heldVoxelSize v0 inputs) inp.input_voxel_size := by
  induction inputs generalizing v0 with
  | nil =>
    unfold heldVoxelSize
    cases hv : inp.input_voxel_size <;> simp [InputValue, hv]
  | cons a rest ih =>
    rw [List.cons_append, heldVoxelSize_cons, heldVoxelSize_cons, ih]

theorem heldVoxelSize_pos (inputs : List FrameInput) :
    ∀ v0 : ℚ, 0 < v0 → (∀ i ∈ inputs, ∀ v, i.input_voxel_size = some v → 0 < v) →
      0 < heldVoxelSize v0 inputs := by
  induction inputs with
  | nil => intro v0 h0 _; simpa [heldVoxelSize] using h0
  | cons a rest ih =>
    intro v0 h0 hpos
    rw [heldVoxelSize_cons]
    apply ih _ _ (fun i hi => hpos i (List.mem_cons_of_mem _ hi))
    cases hv : a.input_voxel_size with
    | none => simpa [InputValue] using h0
    | some v => simpa [InputValue] using hpos a (List.mem_cons_self _ _) v hv

/-- After a run of frames the stored `voxelSize` is the value the input holds. -/
theorem run_voxelSize (env : Env) (inputs : List FrameInput) :
    ∀ s s1 : LoopState, run env inputs s = some s1 →
      s1.app.melt_params.voxelSize = heldVoxelSize s.app.melt_params.voxelSize inputs := by
  induction inputs with
  | nil =>
    intro s s1 h
    simp only [run, Option.some.injEq] at h
    rw [← h]
    simp [heldVoxelSize]
  | cons a rest ih =>
    intro s s1 h
    unfold run at h
    split at h
    · simp at h
    · rename_i s0 hf
      rw [heldVoxelSize_cons, ih s0 s1 h, (frame_calls env a s s0 hf).1]

/-- A run of frames in which every value entered is greater than 0 keeps the
`voxelSize` of every call of `MeltGenerateOccluder` greater than 0. -/
theorem run_calls_pos (env : Env) (inputs : List FrameInput) :
    ∀ s s1 : LoopState, run env inputs s = some s1 →
      0 < s.app.melt_params.voxelSize →
      (∀ p ∈ s.app.generate_calls, 0 < p.voxelSize) →
      (∀ i ∈ inputs, ∀ v, i.input_voxel_size = some v → 0 < v) →
      ∀ p ∈ s1.app.generate_calls, 0 < p.voxelSize := by
  induction inputs with
  | nil =>
    intro s s1 h _ hc _
    simp only [run, Option.some.injEq] at h
    rw [← h]
    exact hc
  | cons a rest ih =>
    intro s s1 h h0 hc hpos
    unfold run at h
    split at h
    · simp at h
    · rename_i s0 hf
      obtain ⟨hv, D, G, hcalls, hD, hG, _⟩ := frame_calls env a s s0 hf
      have hnew : 0 < InputValue s.app.melt_params.voxelSize a.input_voxel_size := by
        cases hv1 : a.input_voxel_size with
        | none => simpa [InputValue] using h0
        | some v => simpa [InputValue] using hpos a (List.mem_cons_self _ _) v hv1
      apply ih s0 s1 h (by rw [hv]; exact hnew) _
        (fun i hi => hpos i (List.mem_cons_of_mem _ hi))
      intro p hp
      rw [hcalls] at hp
      simp only [List.mem_append] at hp
      rcases hp with (hp | hp) | hp
      · exact hc p hp
      · rw [hD p hp]; exact h0
      · rw [hG p hp]; exact hnew

theorem run_append_singleton (env : Env) (inputs : List FrameInput) (inp : FrameInput) :
    ∀ s s1 s2 : LoopState, run env inputs s = some s1 → frame env inp s1 = some s2 →
      run env (inputs ++ [inp]) s = some s2 := by
  induction inputs with
  | nil =>
    intro s s1 s2 h hf
    simp only [run, Option.some.injEq] at h
    subst h
    simp [run, hf]
  | cons a rest ih =>
    intro s s1 s2 h hf
    unfold run at h
    split at h
    · simp at h
    · rename_i s0 hf0
      rw [List.cons_append]
      unfold run
      simp only [hf0]
      exact ih s0 s1 s2 h hf

/-- A frame in which no file is dropped and no model is selected runs to its end,
whatever else the user does. -/
theorem frame_defined_without_load (env : Env) (inp : FrameInput) (s : LoopState)
    (hd : inp.drops = []) (hc : inp.combo_obj_model = none) :
    (frame env inp s).isSome = true := by
  simp only [frame, hd, pollEvents, (buildGui_voxelSize env inp s.gui s.app.melt_params).2.2,
    hc, Option.isSome_none, Bool.false_eq_true, if_false, Option.isSome_some]

theorem quarter_pos : 0 < quarter := by decide

/-- The loop is entered with `voxelSize` 0.25, and the call of
`MeltGenerateOccluder` for a model named on the command line is passed 0.25. -/
theorem startState_voxelSize (env : Env) (argv1 : Option String) (params0 : MeltParams)
    (result0 : MeltResult) (gl : GLState) (s0 : LoopState)
    (h : startState env argv1 params0 result0 gl = some s0) :
    s0.app.melt_params.voxelSize = quarter
    ∧ ∀ p ∈ s0.app.generate_calls, p.voxelSize = quarter := by
  unfold startState at h
  cases argv1 with
  | none =>
    simp only [Option.some.injEq] at h
    rw [← h]
    simp [initialState]
  | some path =>
    simp only at h
    split at h
    · simp at h
    · rename_i b app hc
      simp only [Option.some.injEq] at h
      obtain ⟨hv, c, hcalls, hcv⟩ := ComputeMesh_calls env path _ app b hc
      rw [← h]
      refine ⟨by rw [hv]; rfl, ?_⟩
      intro p hp
      simp only [hcalls, initialState, List.nil_append] at hp
      rw [hcv p hp]
      rfl

/-- C8, amended: every `Parameters` value passed to `MeltGenerateOccluder` carries
the voxel size that the "Voxel Size" input holds at that moment, unchecked.  From
the start of the program, through any run of frames: the call for a model named
on the command line is passed the start-up value 0.25; in every later frame the
calls made by the drop callback are passed the value held before the frame and
the calls made for the Generate button and for a model selection the value held
after the widgets of the frame, which is the value the user entered last, or 0.25
if none was entered; a click on Generate does make a call.  So if every value
entered is greater than 0, the `voxelSize` of every call is greater than 0. -/
theorem C8_generate_gets_voxel_size_held (env : Env) (argv1 : Option String)
    (params0 : MeltParams) (result0 : MeltResult) (gl : GLState)
    (inputs : List FrameInput) (inp : FrameInput) (s0 s1 s2 : LoopState)
    (hstart : startState env argv1 params0 result0 gl = some s0)
    (hrun : run env inputs s0 = some s1) (hframe : frame env inp s1 = some s2) :
    (∀ p ∈ s0.app.generate_calls, p.voxelSize = quarter)
    ∧ (∃ dropCalls guiCalls : List MeltParams,
        s2.app.generate_calls = s1.app.generate_calls ++ dropCalls ++ guiCalls
        ∧ (∀ p ∈ dropCalls, p.voxelSize = heldVoxelSize quarter inputs)
        ∧ (∀ p ∈ guiCalls, p.voxelSize = heldVoxelSize quarter (inputs ++ [inp]))
        ∧ (inp.drops = [] → dropCalls = [])
        ∧ (inp.click_generate = true → guiCalls ≠ [])
        ∧ (inp.click_generate = false → inp.combo_obj_model = none → guiCalls = []))
    ∧ ((∀ i ∈ inputs ++ [inp], ∀ v, i.input_voxel_size = some v → 0 < v) →
        ∀ p ∈ s2.app.generate_calls, 0 < p.voxelSize) := by
  obtain ⟨hv0, hc0⟩ := startState_voxelSize env argv1 params0 result0 gl s0 hstart
  have hv1 := run_voxelSize env inputs s0 s1 hrun
  rw [hv0] at hv1
  obtain ⟨_, D, G, hcalls, hD, hG, hDnil, hGne, hGnil⟩ := frame_calls env inp s1 s2 hframe
  refine ⟨hc0, ⟨D, G, hcalls, ?_, ?_, hDnil, hGne, hGnil⟩, ?_⟩
  · intro p hp
    rw [hD p hp, hv1]
  · intro p hp
    rw [hG p hp, hv1, heldVoxelSize_append_singleton]
  · intro hpos
    apply run_calls_pos env (inputs ++ [inp]) s0 s2
      (run_append_singleton env inputs inp s0 s1 s2 hrun hframe) _ _ hpos
    · rw [hv0]; exact quarter_pos
    · intro p hp
      rw [hc0 p hp]; exact quarter_pos

theorem C8_generate_gets_voxel_size_held_witness :
    startState sampleEnv none sampleParams { debugMesh := { vertices := [], indices := [] } }
        emptyGL = some sampleStart
    ∧ run sampleEnv [typeHalf] sampleStart = some afterTypeHalf
    ∧ frame sampleEnv clickGenerate afterTypeHalf = some afterTypeHalfAndClick
    ∧ afterTypeHalfAndClick.app.generate_calls.map (fun p => p.voxelSize) = [half]
    ∧ heldVoxelSize quarter ([typeHalf] ++ [clickGenerate]) = half
    ∧ (∀ i ∈ [typeHalf] ++ [clickGenerate], ∀ v, i.input_voxel_size = some v → 0 < v)
    ∧ ∀ p ∈ afterTypeHalfAndClick.app.generate_calls, 0 < p.voxelSize :=
  ⟨by decide, by decide, by decide, by decide, by decide, by decide,
   (C8_generate_gets_voxel_size_held sampleEnv none sampleParams
      { debugMesh := { vertices := [], indices := [] } } emptyGL [typeHalf] clickGenerate
      sampleStart afterTypeHalf afterTypeHalfAndClick (by decide) (by decide)
      (by decide)).2.2 (by decide)⟩

end Melt
